import Mathlib

/-!
Shallow embedding of ComfyUI-HiDream-Sampler (src/hidreamsampler.py) and
proofs about its model cache, loader, parsers and resolution node.

Python strings are embedded as lists of characters (`PyStr`); Python dicts
keyed by strings are embedded as association lists with the usual dict
operations (`dictGet`, `dictSet`, `dictPop`).  Foreign library calls
(transformers / diffusers loading, the diffusion pipeline itself, CUDA) are
abstracted into an environment record `Env`; everything the repository's own
code does with their results is modelled faithfully.
-/

/-- Python strings, embedded as their character lists. -/
abbrev PyStr := List Char

/-- Python `d.get(k)` / `d[k]` presence on a string-keyed dict embedded as an
association list (keys are unique in a real dict; the first hit is taken). -/
def dictGet {β : Type} (d : List (PyStr × β)) (k : PyStr) : Option β :=
  match d with
  | [] => none
  | (k', v) :: rest => if k' = k then some v else dictGet rest k

/-- Python `d[k] = v`: replace in place if the key exists, else append. -/
def dictSet {β : Type} (d : List (PyStr × β)) (k : PyStr) (v : β) : List (PyStr × β) :=
  match d with
  | [] => [(k, v)]
  | (k', v') :: rest => if k' = k then (k, v) :: rest else (k', v') :: dictSet rest k v

/-- Python `d.pop(k, None)` / `del d[k]`: remove the entry if present. -/
def dictPop {β : Type} (d : List (PyStr × β)) (k : PyStr) : List (PyStr × β) :=
  match d with
  | [] => []
  | (k', v') :: rest => if k' = k then rest else (k', v') :: dictPop rest k

/-- Helper for the single-character splitter: prepend a character to the
first piece of an already-split list (Python keeps splitting left to right). -/
def consHead (x : Char) : List (List Char) → List (List Char)
  | [] => [[x]]
  | t :: ts => (x :: t) :: ts

/-- Python `s.split(sep)` for a one-character separator `sep = a`. -/
def splitOne (a : Char) : List Char → List (List Char)
  | [] => [[]]
  | x :: rest => if x = a then [] :: splitOne a rest else consHead x (splitOne a rest)

/-- Python `s.split(sep)` for a two-character separator `sep = ab`
(the source splits on the two characters of a space and an opening
parenthesis in `parse_resolution`). -/
def splitTwo (a b : Char) : List Char → List (List Char)
  | [] => [[]]
  | [x] => [[x]]
  | x :: y :: rest =>
    if x = a ∧ y = b then [] :: splitTwo a b rest
    else consHead x (splitTwo a b (y :: rest))

/-- Python `s.strip()`: drop whitespace from both ends. -/
def pyStrip (s : PyStr) : PyStr :=
  ((s.dropWhile Char.isWhitespace).reverse.dropWhile Char.isWhitespace).reverse

/-- Python `s.replace(a, b)` for single characters. -/
def pyReplaceChar (a b : Char) (s : PyStr) : PyStr :=
  s.map fun c => if c = a then b else c

/-- Python `sub in s` substring membership. -/
def pyContains (sub : List Char) : List Char → Bool
  | [] => sub.isEmpty
  | x :: rest => sub.isPrefixOf (x :: rest) || pyContains sub rest

/-- Value of a base-10 digit string. -/
def digitsToNat (cs : List Char) : Nat :=
  cs.foldl (fun acc c => acc * 10 + (c.toNat - 48)) 0

/-- Python `int(str)` on an unsigned decimal digit string (fails, i.e. the
builtin raises ValueError, on anything else).  Modelled for ASCII decimal
digits; Python's extra liberality (underscore grouping, non-ASCII digits)
is outside the inputs this plugin ever parses. -/
def pyParseNat (cs : List Char) : Option Nat :=
  if cs = [] then none
  else if cs.all Char.isDigit then some (digitsToNat cs) else none

/-- Python `int(str)`: surrounding whitespace stripped, then an optional
sign and a nonempty digit string; `none` models a raised ValueError. -/
def pyParseInt (s : PyStr) : Option Int :=
  match pyStrip s with
  | [] => none
  | c :: rest =>
    if c = '-' then
      match pyParseNat rest with
      | some n => some (-(n : Int))
      | none => none
    else if c = '+' then
      match pyParseNat rest with
      | some n => some ((n : Int))
      | none => none
    else
      match pyParseNat (c :: rest) with
      | some n => some ((n : Int))
      | none => none

/-- Body of the `try` block of `parse_resolution` (src lines 444-459): take the
text before the first space-parenthesis, strip it, normalise letter x to the
multiplication sign, split on it, require exactly two parts, parse both as
ints and return (height, width).  `none` models any exception reaching the
`except` handler. -/
def parseResolutionCore (s : PyStr) : Option (Int × Int) :=
  let res_part := pyStrip ((splitTwo ' ' '(' s).headD [])
  let parts := splitOne '×' (pyReplaceChar 'x' '×' res_part)
  match parts with
  | [ws, hs] =>
    match pyParseInt (pyStrip ws), pyParseInt (pyStrip hs) with
    | some w, some h => some (h, w)
    | _, _ => none
  | _ => none

/-- `parse_resolution` (src lines 442-462): the try-body with the
`except` fallback of (1024, 1024). -/
def parse_resolution (s : PyStr) : Int × Int :=
  (parseResolutionCore s).getD (1024, 1024)

/-- Body shared by the `try` blocks of `HiDreamSampler.parse_aspect_ratio`
(src lines 549-553) and the non-Square branch of
`HiDreamSamplerAdvanced.parse_dimensions` (src lines 895-897): take the text
between the first parenthesis pair, split it on the multiplication sign,
unpack exactly two parts and parse both as ints, returning (width, height).
`none` models any exception reaching the `except` handler. -/
def parseDimsCore (s : PyStr) : Option (Int × Int) :=
  match splitOne '(' s with
  | _ :: second :: _ =>
    let dims_part := (splitOne ')' second).headD []
    match splitOne '×' dims_part with
    | [ws, hs] =>
      match pyParseInt ws, pyParseInt hs with
      | some w, some h => some (w, h)
      | _, _ => none
    | _ => none
  | _ => none

/-- `HiDreamSampler.parse_aspect_ratio` (src lines 546-556): the try-body with
the `except` fallback of (1024, 1024). -/
def parse_aspect_ratio (s : PyStr) : Int × Int :=
  (parseDimsCore s).getD (1024, 1024)

/-- `HiDreamSamplerAdvanced.parse_dimensions` (src lines 889-900): a string
containing "Square Reso" returns (1024, 1024) directly; otherwise the same
parse as `parse_aspect_ratio`, with the same fallback. -/
def parse_dimensions (s : PyStr) : Int × Int :=
  if pyContains ("Square Reso").data s then (1024, 1024)
  else (parseDimsCore s).getD (1024, 1024)

/-- The four sub-components of a loaded pipeline object that the repository's
own cache-management code reads or clears: `pipe.transformer`,
`pipe.text_encoder_4`, `pipe.tokenizer_4`, `pipe.scheduler`.  Each is an
opaque foreign object, present (`some` id) or cleared to Python `None`. -/
structure Pipe where
  transformer : Option Nat
  text_encoder_4 : Option Nat
  tokenizer_4 : Option Nat
  scheduler : Option Nat
deriving DecidableEq

/-- One entry of `MODEL_CONFIGS` (src lines 137-176).  `guidanceScale` and
`shift` are exact decimal values, embedded as rationals. -/
structure ModelConfig where
  path : PyStr
  guidanceScale : ℚ
  numInferenceSteps : Nat
  shift : ℚ
  schedulerClass : PyStr
  isNF4 : Bool
  isFP8 : Bool
  requiresBNB : Bool
  requiresGPTQDeps : Bool
deriving DecidableEq

/-- The unfiltered `MODEL_CONFIGS` table exactly as written at src lines
137-176 (fields in the order declared by `ModelConfig`). -/
def baseModelConfigs : List (PyStr × ModelConfig) :=
  [ (("full-nf4").data,
      ⟨("azaneko/HiDream-I1-Full-nf4").data, 5, 50, 3,
        ("FlowUniPCMultistepScheduler").data, true, false, false, true⟩),
    (("dev-nf4").data,
      ⟨("azaneko/HiDream-I1-Dev-nf4").data, 0, 28, 6,
        ("FlashFlowMatchEulerDiscreteScheduler").data, true, false, false, true⟩),
    (("fast-nf4").data,
      ⟨("azaneko/HiDream-I1-Fast-nf4").data, 0, 16, 3,
        ("FlashFlowMatchEulerDiscreteScheduler").data, true, false, false, true⟩),
    (("full").data,
      ⟨("HiDream-ai/HiDream-I1-Full").data, 5, 50, 3,
        ("FlowUniPCMultistepScheduler").data, false, false, true, false⟩),
    (("dev").data,
      ⟨("HiDream-ai/HiDream-I1-Dev").data, 0, 28, 6,
        ("FlashFlowMatchEulerDiscreteScheduler").data, false, false, true, false⟩),
    (("fast").data,
      ⟨("HiDream-ai/HiDream-I1-Fast").data, 0, 16, 3,
        ("FlashFlowMatchEulerDiscreteScheduler").data, false, false, true, false⟩) ]

/-- The shared `_model_cache`: a dict from a string fingerprint to a
`(pipe, config)` tuple.  Either slot of the tuple can hold `None` in a
corrupted entry, which the validity checks probe for. -/
abbrev Cache := List (PyStr × (Option Pipe × Option ModelConfig))

/-- The module's host environment: which optional dependencies imported
(src lines 40-126) and the outcomes of the foreign loading and inference
calls, which this embedding treats as oracles. `freshLoad` stands for the
tokenizer / text-encoder / transformer loading of src lines 280-392
(component ids on success, an exception otherwise); `pipeAssemblyOk` for the
pipeline assembly of src lines 399-430; `newSchedulerId` for a scheduler
instance freshly constructed by `get_scheduler_instance` or a scheduler
replacement branch; `cleanupFails` for a per-entry exception inside a
cache-clearing `try` body; `runPipeline` for the whole inference and
tensor-conversion block after a model is ready. -/
structure Env where
  bnbAvailable : Bool
  optimumAvailable : Bool
  gptqSupportAvailable : Bool
  hidreamClassesLoaded : Bool
  freshLoad : PyStr → Bool → Except Unit (Nat × Nat × Nat)
  pipeAssemblyOk : PyStr → Bool → Bool
  newSchedulerId : Nat
  cleanupFails : PyStr → Bool
  runPipeline : PyStr → Bool → Nat → Nat → Nat → ℚ → (List Nat × Bool)

/-- `MODEL_CONFIGS` after the dependency filtering of src lines 177-187:
entries requiring bitsandbytes drop without it, entries requiring GPTQ
support drop without optimum plus a GPTQ backend, and everything drops when
the hi_diffusers classes failed to import. -/
def MODEL_CONFIGS (env : Env) : List (PyStr × ModelConfig) :=
  let s1 := if env.bnbAvailable then baseModelConfigs
            else baseModelConfigs.filter (fun kv => !kv.2.requiresBNB)
  let s2 := if !env.optimumAvailable || !env.gptqSupportAvailable
            then s1.filter (fun kv => !kv.2.requiresGPTQDeps) else s1
  if env.hidreamClassesLoaded then s2 else []

/-- The text-to-image cache key of src lines 264, 616 and 937:
`f"{model_type}_{'alternate' if use_alternate_llm else 'standard'}"`. -/
def cacheKey (mt : PyStr) (alt : Bool) : PyStr :=
  mt ++ (if alt then ('_' :: ('a' :: 'l' :: 't' :: 'e' :: 'r' :: 'n' :: 'a' :: 't' :: 'e' :: []))
         else ('_' :: ('s' :: 't' :: 'a' :: 'n' :: 'd' :: 'a' :: 'r' :: 'd' :: [])))

/-- The image-to-image cache key of src line 1342:
`f"{model_type}_img2img_{'alternate' if use_alternate_llm else 'standard'}"`. -/
def img2imgCacheKey (mt : PyStr) (alt : Bool) : PyStr :=
  mt ++ (('_' :: 'i' :: 'm' :: 'g' :: '2' :: 'i' :: 'm' :: 'g' :: []) ++
         (if alt then ('_' :: ('a' :: 'l' :: 't' :: 'e' :: 'r' :: 'n' :: 'a' :: 't' :: 'e' :: []))
          else ('_' :: ('s' :: 't' :: 'a' :: 'n' :: 'd' :: 'a' :: 'r' :: 'd' :: []))))

/-- The exception kinds `load_models` can raise: ImportError (missing classes
or missing quantization dependencies), ValueError (unknown model type, or an
unknown scheduler class in `get_scheduler_instance`), RuntimeError (no
schedulers available), and any exception escaping a foreign loading call. -/
inductive LoadErr
  | importErr
  | valueErr
  | runtimeErr
  | loadFail
deriving DecidableEq

/-- `available_schedulers` (src lines 198-199): both scheduler classes when
the hi_diffusers imports succeeded, empty otherwise. -/
def available_schedulers (env : Env) : List PyStr :=
  if env.hidreamClassesLoaded
  then [("FlowUniPCMultistepScheduler").data, ("FlashFlowMatchEulerDiscreteScheduler").data]
  else []

/-- `get_scheduler_instance` (src lines 231-235): RuntimeError when no
schedulers are available, ValueError when the named class is absent, a fresh
scheduler instance otherwise. -/
def get_scheduler_instance (env : Env) (name : PyStr) : Except LoadErr Nat :=
  if available_schedulers env = [] then Except.error LoadErr.runtimeErr
  else if name ∈ available_schedulers env then Except.ok env.newSchedulerId
  else Except.error LoadErr.valueErr

/-- The fresh-load tail of `load_models` (src lines 280-434): tokenizer, text
encoder and transformer from the foreign loaders, a scheduler from
`get_scheduler_instance`, then pipeline assembly; on success the returned
pipeline holds all four sub-components (src lines 402-415 assign them). -/
def loadFresh (env : Env) (cache : Cache) (mt : PyStr) (alt : Bool) (config : ModelConfig) :
    Cache × Except LoadErr (Pipe × ModelConfig) :=
  match env.freshLoad mt alt with
  | Except.error _ => (cache, Except.error LoadErr.loadFail)
  | Except.ok (tok, te, tr) =>
    match get_scheduler_instance env config.schedulerClass with
    | Except.error e => (cache, Except.error e)
    | Except.ok sch =>
      if env.pipeAssemblyOk mt alt
      then (cache, Except.ok (⟨some tr, some te, some tok, some sch⟩, config))
      else (cache, Except.error LoadErr.loadFail)

/-- `load_models` (src lines 237-434): import guard, `MODEL_CONFIGS`
membership (ValueError otherwise), dependency guards, then the cache check of
src lines 271-278 — a structurally valid entry is returned together with the
original `MODEL_CONFIGS[model_type]` record and the cache untouched, an
invalid entry is popped and a fresh load performed; a cache miss goes
straight to the fresh load.  `load_models` itself never inserts. -/
def load_models (env : Env) (cache : Cache) (mt : PyStr) (alt : Bool) :
    Cache × Except LoadErr (Pipe × ModelConfig) :=
  if env.hidreamClassesLoaded then
    match dictGet (MODEL_CONFIGS env) mt with
    | none => (cache, Except.error LoadErr.valueErr)
    | some config =>
      if config.requiresBNB && !env.bnbAvailable then (cache, Except.error LoadErr.importErr)
      else if config.requiresGPTQDeps && (!env.optimumAvailable || !env.gptqSupportAvailable)
      then (cache, Except.error LoadErr.importErr)
      else
        match dictGet cache (cacheKey mt alt) with
        | some (some pipe, _storedCfg) =>
          if pipe.transformer.isSome then (cache, Except.ok (pipe, config))
          else loadFresh env (dictPop cache (cacheKey mt alt)) mt alt config
        | some (none, _storedCfg) => loadFresh env (dictPop cache (cacheKey mt alt)) mt alt config
        | none => loadFresh env cache mt alt config
  else (cache, Except.error LoadErr.importErr)

/-- A pipeline after the "more aggressive cleanup" assignments (src lines
525-532, 637-645, 960-968, 1370-1377): all four sub-components set to None. -/
def clearedPipe : Pipe := ⟨none, none, none, none⟩

/-- The shared cache-clearing loop (`cleanup_models`, src lines 519-535, and
the inline copies at src lines 632-648, 955-971 and 1364-1380): iterate over
a snapshot of the keys, pop each entry, then null its sub-components inside a
per-entry `try`; `fails k` models an exception thrown while clearing entry
`k`'s components — the pop has already happened, so the entry is gone either
way.  Returns the final dict and the list of pipes whose components were
nulled. -/
def clearEntriesLoop (fails : PyStr → Bool) :
    List PyStr → Cache → List Pipe → Cache × List Pipe
  | [], c, cleaned => (c, cleaned)
  | k :: ks, c, cleaned =>
    match dictGet c k with
    | none => clearEntriesLoop fails ks c cleaned
    | some (pipeOpt, _) =>
      let c' := dictPop c k
      if fails k then clearEntriesLoop fails ks c' cleaned
      else
        match pipeOpt with
        | none => clearEntriesLoop fails ks c' cleaned
        | some _ => clearEntriesLoop fails ks c' (cleaned ++ [clearedPipe])

/-- Clearing every entry of the cache, starting from the snapshot
`keys_to_del = list(cache.keys())`. -/
def clearAllEntries (fails : PyStr → Bool) (c : Cache) : Cache × List Pipe :=
  clearEntriesLoop fails (c.map Prod.fst) c []

/-- `HiDreamSampler.cleanup_models` (src lines 515-544), shared by all node
classes: removes and tears down every cached entry. -/
def cleanup_models (fails : PyStr → Bool) (c : Cache) : Cache × List Pipe :=
  clearAllEntries fails c

/-- An output image tensor as far as the claims observe it: its shape and
whether it is the all-zero tensor. -/
structure OutImage where
  shape : List Nat
  allZero : Bool
deriving DecidableEq

/-- `torch.zeros(shape)`. -/
def zerosImage (shape : List Nat) : OutImage := ⟨shape, true⟩

/-- Python `pipe.scheduler = s`. -/
def setScheduler (p : Pipe) (s : Option Nat) : Pipe :=
  ⟨p.transformer, p.text_encoder_4, p.tokenizer_4, s⟩

/-- The cache probe at the head of every `generate` (src lines 618-627,
940-950, 1345-1357): a present entry with a non-None pipe, non-None config
and non-None transformer is a valid hit; any other present entry is deleted
(`del cache[key]`) and treated as a miss. -/
def genCacheCheck (c : Cache) (key : PyStr) : Cache × Option (Pipe × ModelConfig) :=
  match dictGet c key with
  | none => (c, none)
  | some (some p, some cfg) =>
    if p.transformer.isSome then (c, some (p, cfg)) else (dictPop c key, none)
  | some _ => (dictPop c key, none)

/-- The scheduler-selection block of every `generate` (src lines 674-702,
1000-1029, 1434-1462): a named option replaces `pipe.scheduler` with a fresh
instance; an unrecognised option leaves the pipe untouched; "Default for
model" rebuilds the config's scheduler through `get_scheduler_instance`,
whose exceptions propagate out of `generate` (this block sits outside any
`try`).  The mutation of the shared pipe object is reflected into the cache
entry under `key`, which stores that object. -/
def applySchedulerChoice (env : Env) (c : Cache) (key : PyStr) (p : Pipe)
    (storedCfg : ModelConfig) (schedulerClass : PyStr) (sched : PyStr) :
    Cache × Except Unit Pipe :=
  if sched ≠ ("Default for model").data then
    if sched = ("UniPC").data then
      let p' := setScheduler p (some env.newSchedulerId)
      (dictSet c key (some p', some storedCfg), Except.ok p')
    else if sched = ("Euler").data then
      let p' := setScheduler p (some env.newSchedulerId)
      (dictSet c key (some p', some storedCfg), Except.ok p')
    else if sched = ("Karras Euler").data then
      let p' := setScheduler p (some env.newSchedulerId)
      (dictSet c key (some p', some storedCfg), Except.ok p')
    else if sched = ("Karras Exponential").data then
      let p' := setScheduler p (some env.newSchedulerId)
      (dictSet c key (some p', some storedCfg), Except.ok p')
    else (c, Except.ok p)
  else
    match get_scheduler_instance env schedulerClass with
    | Except.error _ => (c, Except.error ())
    | Except.ok sid =>
      let p' := setScheduler p (some sid)
      (dictSet c key (some p', some storedCfg), Except.ok p')

/-- Everything `HiDreamSampler.generate` does once a pipe and config are in
hand (src lines 670-814): the second, unguarded `load_models` call of src
line 671 (its exceptions propagate), the scheduler block, the step and
guidance overrides, and the foreign inference plus tensor conversion
abstracted as `env.runPipeline`. -/
def afterLoadSampler (env : Env) (c : Cache) (mt : PyStr) (alt : Bool) (key : PyStr)
    (p : Pipe) (cfg : ModelConfig) (sched : PyStr) (h w : Nat)
    (oSteps : Int) (oCfg : ℚ) : Cache × Except Unit OutImage :=
  match load_models env c mt alt with
  | (c5, Except.error _) => (c5, Except.error ())
  | (c5, Except.ok (_pipe2, model_config)) =>
    match applySchedulerChoice env c5 key p cfg model_config.schedulerClass sched with
    | (c6, Except.error _) => (c6, Except.error ())
    | (c6, Except.ok _p') =>
      let nSteps := if oSteps ≥ 0 then oSteps.toNat else cfg.numInferenceSteps
      let gs := if oCfg ≥ 0 then oCfg else cfg.guidanceScale
      (c6, Except.ok ⟨(env.runPipeline mt alt h w nSteps gs).1,
                      (env.runPipeline mt alt h w nSteps gs).2⟩)

/-- The miss branch of `HiDreamSampler.generate` (src lines 629-666): clear
the whole cache if nonempty, call `load_models` inside a `try` that turns any
exception into the (1,512,512,3) zero tensor, cache the loaded pair under the
key, and continue with the post-load tail. -/
def samplerLoadPath (env : Env) (c1 : Cache) (mt : PyStr) (alt : Bool)
    (sched : PyStr) (h w : Nat) (oSteps : Int) (oCfg : ℚ) :
    Cache × Except Unit OutImage :=
  let c2 := if c1 = [] then c1 else (clearAllEntries env.cleanupFails c1).1
  match load_models env c2 mt alt with
  | (c3, Except.error _) => (c3, Except.ok (zerosImage [1, 512, 512, 3]))
  | (c3, Except.ok (p, cfg)) =>
    afterLoadSampler env (dictSet c3 (cacheKey mt alt) (some p, some cfg)) mt alt
      (cacheKey mt alt) p cfg sched h w oSteps oCfg

/-- `HiDreamSampler.generate` (src lines 599-814): parse the aspect ratio,
snap to multiples of 64, bail out with a (1,512,512,3) zero tensor when no
models are available, then the cache probe, the clear-all-then-load path on a
miss, and the post-load tail on a hit. -/
def HiDreamSampler_generate (env : Env) (c : Cache) (mt : PyStr) (alt : Bool)
    (aspect sched : PyStr) (oSteps : Int) (oCfg : ℚ) : Cache × Except Unit OutImage :=
  let wh := parse_aspect_ratio aspect
  let w := (Int.fdiv wh.1 64 * 64).toNat
  let h := (Int.fdiv wh.2 64 * 64).toNat
  if MODEL_CONFIGS env = [] ∨ mt = ("error").data then
    (c, Except.ok (zerosImage [1, 512, 512, 3]))
  else
    let s1 := genCacheCheck c (cacheKey mt alt)
    match s1.2 with
    | some (p, cfg) =>
      afterLoadSampler env s1.1 mt alt (cacheKey mt alt) p cfg sched h w oSteps oCfg
    | none => samplerLoadPath env s1.1 mt alt sched h w oSteps oCfg

/-- The post-load tail shared by `HiDreamSamplerAdvanced.generate` (src lines
996-1179) and `HiDreamImg2Img.generate` (src lines 1431-1580): the scheduler
block driven by the stored config's scheduler class (no second `load_models`
call in these two nodes), then the overrides and the foreign inference. -/
def afterLoadNoReload (env : Env) (c : Cache) (mt : PyStr) (alt : Bool) (key : PyStr)
    (p : Pipe) (cfg : ModelConfig) (sched : PyStr) (h w : Nat)
    (oSteps : Int) (oCfg : ℚ) : Cache × Except Unit OutImage :=
  match applySchedulerChoice env c key p cfg cfg.schedulerClass sched with
  | (c6, Except.error _) => (c6, Except.error ())
  | (c6, Except.ok _p') =>
    let nSteps := if oSteps ≥ 0 then oSteps.toNat else cfg.numInferenceSteps
    let gs := if oCfg ≥ 0 then oCfg else cfg.guidanceScale
    (c6, Except.ok ⟨(env.runPipeline mt alt h w nSteps gs).1,
                    (env.runPipeline mt alt h w nSteps gs).2⟩)

/-- The miss branch of `HiDreamSamplerAdvanced.generate` (src lines
952-994): identical to the sampler's, except that no second `load_models`
call follows (the post-load tail is `afterLoadNoReload`). -/
def advancedLoadPath (env : Env) (c1 : Cache) (mt : PyStr) (alt : Bool)
    (sched : PyStr) (h w : Nat) (oSteps : Int) (oCfg : ℚ) :
    Cache × Except Unit OutImage :=
  let c2 := if c1 = [] then c1 else (clearAllEntries env.cleanupFails c1).1
  match load_models env c2 mt alt with
  | (c3, Except.error _) => (c3, Except.ok (zerosImage [1, 512, 512, 3]))
  | (c3, Except.ok (p, cfg)) =>
    afterLoadNoReload env (dictSet c3 (cacheKey mt alt) (some p, some cfg)) mt alt
      (cacheKey mt alt) p cfg sched h w oSteps oCfg

/-- `HiDreamSamplerAdvanced.generate` (src lines 902-1179): dimensions from
the square / custom / parsed aspect choice, then exactly the same cache
discipline as `HiDreamSampler.generate` (src lines 930-994), without the
second `load_models` call. -/
def HiDreamSamplerAdvanced_generate (env : Env) (c : Cache) (mt : PyStr) (alt : Bool)
    (aspect : PyStr) (square_resolution custom_width custom_height : Nat)
    (sched : PyStr) (oSteps : Int) (oCfg : ℚ) : Cache × Except Unit OutImage :=
  let wh : Int × Int :=
    if pyContains ("Square Reso").data aspect then
      ((square_resolution : Int), (square_resolution : Int))
    else if aspect = ("Custom").data then
      ((custom_width : Int), (custom_height : Int))
    else parse_dimensions aspect
  let w := (Int.fdiv wh.1 64 * 64).toNat
  let h := (Int.fdiv wh.2 64 * 64).toNat
  if MODEL_CONFIGS env = [] ∨ mt = ("error").data then
    (c, Except.ok (zerosImage [1, 512, 512, 3]))
  else
    let s1 := genCacheCheck c (cacheKey mt alt)
    match s1.2 with
    | some (p, cfg) =>
      afterLoadNoReload env s1.1 mt alt (cacheKey mt alt) p cfg sched h w oSteps oCfg
    | none => advancedLoadPath env s1.1 mt alt sched h w oSteps oCfg

/-- The miss branch of `HiDreamImg2Img.generate` (src lines 1360-1425):
clear the whole cache if nonempty, load a text-to-image pipeline through
`load_models`, assemble the image-to-image pipeline from its components (src
lines 1398-1412), cache it under the img2img key; any exception becomes the
(1,512,512,3) zero tensor. -/
def img2imgLoadPath (env : Env) (c1 : Cache) (mt : PyStr) (alt : Bool)
    (sched : PyStr) (ih iw : Nat) (oSteps : Int) (oCfg : ℚ) :
    Cache × Except Unit OutImage :=
  let c2 := if c1 = [] then c1 else (clearAllEntries env.cleanupFails c1).1
  match load_models env c2 mt alt with
  | (c3, Except.error _) => (c3, Except.ok (zerosImage [1, 512, 512, 3]))
  | (c3, Except.ok (txt2img_pipe, cfg)) =>
    let pipe : Pipe := ⟨txt2img_pipe.transformer, txt2img_pipe.text_encoder_4,
                        txt2img_pipe.tokenizer_4, txt2img_pipe.scheduler⟩
    afterLoadNoReload env (dictSet c3 (img2imgCacheKey mt alt) (some pipe, some cfg))
      mt alt (img2imgCacheKey mt alt) pipe cfg sched ih iw oSteps oCfg

/-- `HiDreamImg2Img.generate` (src lines 1317-1580): dimensions come from the
preprocessed input image (`ih`, `iw`); the key carries the img2img marker;
the cache probe and the clear-all-then-load discipline are the sampler's. -/
def HiDreamImg2Img_generate (env : Env) (c : Cache) (mt : PyStr) (alt : Bool)
    (ih iw : Nat) (sched : PyStr) (oSteps : Int) (oCfg : ℚ) :
    Cache × Except Unit OutImage :=
  if MODEL_CONFIGS env = [] ∨ mt = ("error").data then
    (c, Except.ok (zerosImage [1, 512, 512, 3]))
  else
    let s1 := genCacheCheck c (img2imgCacheKey mt alt)
    match s1.2 with
    | some (p, cfg) =>
      afterLoadNoReload env s1.1 mt alt (img2imgCacheKey mt alt) p cfg sched ih iw oSteps oCfg
    | none => img2imgLoadPath env s1.1 mt alt sched ih iw oSteps oCfg

/-- `HiDreamResolutionSelect._RESOLUTION_PRESETS` (src lines 1585-1602);
"Custom Square" carries the None marker. -/
def RESOLUTION_PRESETS : List (PyStr × Option (Nat × Nat)) :=
  [ (("1:1 (Square Reso)").data, some (1024, 1024)),
    (("1:2 Tablet (704 x 1408)").data, some (704, 1408)),
    (("2:1 Rectangle (1408 x 704)").data, some (1408, 704)),
    (("2:3 Portrait (704 x 1344)").data, some (704, 1344)),
    (("3:2 Landscape (1344 x 704)").data, some (1344, 704)),
    (("12:25 Poster (704 x 1472)").data, some (704, 1472)),
    (("25:12 Banner (1472 x 704)").data, some (1472, 704)),
    (("4:5 Classic (896 x 1120)").data, some (896, 1120)),
    (("5:4 Classic (1120 x 896)").data, some (1120, 896)),
    (("9:16 Portrait (768 x 1344)").data, some (768, 1344)),
    (("16:9 Widescreen (1344 x 768)").data, some (1344, 768)),
    (("1:3 Vertical Poster (576 x 1728)").data, some (576, 1728)),
    (("3:1 Panoramic (1728 x 576)").data, some (1728, 576)),
    (("1:4 Ultrawide (512 x 2048)").data, some (512, 2048)),
    (("4:1 Banner (2048 x 512)").data, some (2048, 512)),
    (("Custom Square").data, none) ]

/-- `HiDreamResolutionSelect.get_resolution` (src lines 1625-1646): Custom
Square echoes the slider value; a known preset returns its stored pair; an
unknown preset falls back to (1024, 1024). -/
def get_resolution (resolution_preset : PyStr) (custom_square_size : Nat) : Nat × Nat :=
  if resolution_preset = ("Custom Square").data then
    (custom_square_size, custom_square_size)
  else
    match dictGet RESOLUTION_PRESETS resolution_preset with
    | some (some wh) => wh
    | _ => (1024, 1024)

/-- The host's `unload_all_models` operation as the hook installer sees it: a
flag recording the `_hidream_wrapped` attribute, and the callable itself,
acting on the plugin cache (which the genuine host function ignores) and an
abstract host state, returning a result value. -/
structure UnloadFn where
  hidreamWrapped : Bool
  run : Cache → Nat → Cache × Nat × Nat

/-- `wrapped_unload` (src lines 1673-1678): run the shared
`cleanup_models`, then delegate to the captured original and return its
result; the new callable carries the `_hidream_wrapped` marker. -/
def wrapUnload (fails : PyStr → Bool) (u : UnloadFn) : UnloadFn :=
  ⟨true, fun cache host => u.run (cleanup_models fails cache).1 host⟩

/-- The module-level registration (src lines 1668-1682): wrap
`comfy.model_management.unload_all_models` unless it already carries the
`_hidream_wrapped` marker, in which case leave it untouched. -/
def installHiDreamHook (fails : PyStr → Bool) (u : UnloadFn) : UnloadFn :=
  if u.hidreamWrapped then u else wrapUnload fails u


/-- A fully provisioned sample environment used by the concrete witnesses:
every optional dependency available, foreign loads succeed with fixed
component ids, inference succeeds. -/
def envOK : Env :=
  ⟨true, true, true, true, fun _ _ => Except.ok (1, 2, 3), fun _ _ => true, 7,
   fun _ => false, fun _ _ h w _ _ => ([1, h, w, 3], false)⟩

/-- A sample un-wrapped host unload function for the hook witness. -/
def unloadSample : UnloadFn := ⟨false, fun cache host => (cache, host, 42)⟩

/-- The `MODEL_CONFIGS` record of the "full" variant, for the witnesses. -/
def cfgFull : ModelConfig :=
  ⟨("HiDream-ai/HiDream-I1-Full").data, 5, 50, 3,
    ("FlowUniPCMultistepScheduler").data, false, false, true, false⟩

/-- A structurally valid pipe, for the witnesses. -/
def pipeGood : Pipe := ⟨some 3, some 2, some 1, some 0⟩

deriving instance DecidableEq for Except

theorem dictGet_dictSet_self {β : Type} (d : List (PyStr × β)) (k : PyStr) (v : β) :
    dictGet (dictSet d k v) k = some v := by
  induction d with
  | nil => simp [dictSet, dictGet]
  | cons kv rest ih =>
    obtain ⟨k', v'⟩ := kv
    by_cases h : k' = k <;> simp [dictSet, dictGet, h, ih]

theorem dictGet_dictSet_ne {β : Type} (d : List (PyStr × β)) (k k' : PyStr) (v : β)
    (h : k' ≠ k) : dictGet (dictSet d k v) k' = dictGet d k' := by
  induction d with
  | nil => simp [dictSet, dictGet, Ne.symm h]
  | cons kv rest ih =>
    obtain ⟨k0, v0⟩ := kv
    by_cases h0 : k0 = k
    · subst h0
      simp [dictSet, dictGet, Ne.symm h]
    · simp [dictSet, dictGet, h0, ih]

theorem dictGet_eq_none_of_not_mem {β : Type} (d : List (PyStr × β)) (k : PyStr)
    (h : k ∉ d.map Prod.fst) : dictGet d k = none := by
  induction d with
  | nil => rfl
  | cons kv rest ih =>
    obtain ⟨k0, v0⟩ := kv
    simp only [List.map_cons, List.mem_cons] at h
    push_neg at h
    simp [dictGet, Ne.symm h.1, ih h.2]

theorem dictGet_mem {β : Type} (d : List (PyStr × β)) (k : PyStr) (v : β)
    (h : dictGet d k = some v) : (k, v) ∈ d := by
  induction d with
  | nil => simp [dictGet] at h
  | cons kv rest ih =>
    obtain ⟨k0, v0⟩ := kv
    by_cases h0 : k0 = k
    · subst h0
      simp [dictGet] at h
      simp [h]
    · simp [dictGet, h0] at h
      exact List.mem_cons_of_mem _ (ih h)

theorem dictGet_dictPop_self {β : Type} (d : List (PyStr × β)) (k : PyStr)
    (h : (d.map Prod.fst).Nodup) : dictGet (dictPop d k) k = none := by
  induction d with
  | nil => rfl
  | cons kv rest ih =>
    obtain ⟨k0, v0⟩ := kv
    simp only [List.map_cons, List.nodup_cons] at h
    by_cases h0 : k0 = k
    · subst h0
      simpa [dictPop] using dictGet_eq_none_of_not_mem rest k0 h.1
    · simp [dictPop, dictGet, h0, ih h.2]

theorem dictPop_length_le {β : Type} (d : List (PyStr × β)) (k : PyStr) :
    (dictPop d k).length ≤ d.length := by
  induction d with
  | nil => simp [dictPop]
  | cons kv rest ih =>
    obtain ⟨k0, v0⟩ := kv
    by_cases h0 : k0 = k <;> (simp [dictPop, h0]; try omega)

theorem dictPop_length_isSome {β : Type} (d : List (PyStr × β)) (k : PyStr)
    (h : (dictGet d k).isSome) : (dictPop d k).length + 1 = d.length := by
  induction d with
  | nil => simp [dictGet] at h
  | cons kv rest ih =>
    obtain ⟨k0, v0⟩ := kv
    by_cases h0 : k0 = k
    · simp [dictPop, h0]
    · simp only [dictGet, h0, if_false] at h
      simp [dictPop, h0, ih h]

theorem dictSet_length_le {β : Type} (d : List (PyStr × β)) (k : PyStr) (v : β) :
    (dictSet d k v).length ≤ d.length + 1 := by
  induction d with
  | nil => simp [dictSet]
  | cons kv rest ih =>
    obtain ⟨k0, v0⟩ := kv
    by_cases h0 : k0 = k <;> (simp [dictSet, h0]; try omega)

theorem dictSet_length_isSome {β : Type} (d : List (PyStr × β)) (k : PyStr) (v : β)
    (h : (dictGet d k).isSome) : (dictSet d k v).length = d.length := by
  induction d with
  | nil => simp [dictGet] at h
  | cons kv rest ih =>
    obtain ⟨k0, v0⟩ := kv
    by_cases h0 : k0 = k
    · simp [dictSet, h0]
    · simp only [dictGet, h0, if_false] at h
      simp [dictSet, h0, ih h]

theorem clearEntriesLoop_fst_nil (fails : PyStr → Bool) (c : Cache) :
    ∀ cleaned, (clearEntriesLoop fails (c.map Prod.fst) c cleaned).1 = [] := by
  induction c with
  | nil => intro cleaned; rfl
  | cons kv rest ih =>
    intro cleaned
    obtain ⟨k, pipeOpt, cfgOpt⟩ := kv
    have hget : dictGet ((k, (pipeOpt, cfgOpt)) :: rest) k = some (pipeOpt, cfgOpt) := by
      simp [dictGet]
    have hpop : dictPop ((k, (pipeOpt, cfgOpt)) :: rest) k = rest := by
      simp [dictPop]
    simp only [List.map_cons, clearEntriesLoop, hget, hpop]
    by_cases hf : fails k
    · simp [hf, ih]
    · cases pipeOpt <;> simp [hf, ih]

theorem clearAllEntries_fst (fails : PyStr → Bool) (c : Cache) :
    (clearAllEntries fails c).1 = [] :=
  clearEntriesLoop_fst_nil fails c []

theorem cleanup_models_fst (fails : PyStr → Bool) (c : Cache) :
    (cleanup_models fails c).1 = [] :=
  clearAllEntries_fst fails c

theorem clearEntriesLoop_cleaned (fails : PyStr → Bool) :
    ∀ (ks : List PyStr) (c : Cache) (cleaned : List Pipe),
      (∀ p ∈ cleaned, p = clearedPipe) →
      ∀ p ∈ (clearEntriesLoop fails ks c cleaned).2, p = clearedPipe := by
  intro ks
  induction ks with
  | nil => intro c cleaned hc p hp; exact hc p hp
  | cons k ks ih =>
    intro c cleaned hc p hp
    rcases hget : dictGet c k with _ | ⟨pipeOpt, cfgOpt⟩ <;>
      simp only [clearEntriesLoop, hget] at hp
    · exact ih c cleaned hc p hp
    · by_cases hf : fails k
      · rw [if_pos hf] at hp
        exact ih _ cleaned hc p hp
      · rw [if_neg hf] at hp
        cases pipeOpt with
        | none => exact ih _ cleaned hc p hp
        | some q =>
          refine ih _ _ ?_ p hp
          intro r hr
          rcases List.mem_append.mp hr with h | h
          · exact hc r h
          · simpa using h

theorem clearAllEntries_cleaned (fails : PyStr → Bool) (c : Cache) :
    ∀ p ∈ (clearAllEntries fails c).2, p = clearedPipe :=
  clearEntriesLoop_cleaned fails (c.map Prod.fst) c [] (by simp)

theorem mem_MODEL_CONFIGS_base (env : Env) (kv : PyStr × ModelConfig)
    (h : kv ∈ MODEL_CONFIGS env) : kv ∈ baseModelConfigs := by
  unfold MODEL_CONFIGS at h
  by_cases hc : env.hidreamClassesLoaded
  · simp only [hc, if_true] at h
    by_cases hg : !env.optimumAvailable || !env.gptqSupportAvailable <;>
      by_cases hb : env.bnbAvailable <;>
      simp only [hg, hb, if_true, if_false, Bool.false_eq_true] at h <;>
      first
        | exact h
        | exact List.mem_of_mem_filter h
        | exact List.mem_of_mem_filter (List.mem_of_mem_filter h)
  · simp [hc] at h

theorem base_schedulerClass (kv : PyStr × ModelConfig) (h : kv ∈ baseModelConfigs) :
    kv.2.schedulerClass = ("FlowUniPCMultistepScheduler").data ∨
    kv.2.schedulerClass = ("FlashFlowMatchEulerDiscreteScheduler").data := by
  fin_cases h <;> simp [baseModelConfigs]

theorem get_scheduler_instance_ok (env : Env) (mt : PyStr) (cfg : ModelConfig)
    (hcl : env.hidreamClassesLoaded = true)
    (hcfg : dictGet (MODEL_CONFIGS env) mt = some cfg) :
    get_scheduler_instance env cfg.schedulerClass = Except.ok env.newSchedulerId := by
  have hmem := mem_MODEL_CONFIGS_base env (mt, cfg) (dictGet_mem _ _ _ hcfg)
  have hsched := base_schedulerClass (mt, cfg) hmem
  rcases hsched with h | h
  · have h2 : cfg.schedulerClass = ("FlowUniPCMultistepScheduler").data := h
    rw [get_scheduler_instance, available_schedulers, h2]
    simp [hcl]
  · have h2 : cfg.schedulerClass = ("FlashFlowMatchEulerDiscreteScheduler").data := h
    rw [get_scheduler_instance, available_schedulers, h2]
    simp [hcl]

theorem MODEL_CONFIGS_dep_ok (env : Env) (mt : PyStr) (cfg : ModelConfig)
    (hcfg : dictGet (MODEL_CONFIGS env) mt = some cfg) :
    (cfg.requiresBNB && !env.bnbAvailable) = false ∧
    (cfg.requiresGPTQDeps && (!env.optimumAvailable || !env.gptqSupportAvailable)) = false := by
  have hmem := dictGet_mem _ _ _ hcfg
  unfold MODEL_CONFIGS at hmem
  by_cases hc : env.hidreamClassesLoaded
  · simp only [hc, if_true] at hmem
    by_cases hg : !env.optimumAvailable || !env.gptqSupportAvailable <;>
      by_cases hb : env.bnbAvailable <;>
      simp only [hg, hb, if_true, if_false, Bool.false_eq_true] at hmem ⊢
    · rcases List.mem_filter.mp hmem with ⟨_, h2⟩
      simp_all
    · rcases List.mem_filter.mp hmem with ⟨hmem2, h2⟩
      rcases List.mem_filter.mp hmem2 with ⟨_, h1⟩
      simp_all
    · simp_all
    · rcases List.mem_filter.mp hmem with ⟨_, h1⟩
      simp_all
  · simp [hc] at hmem

theorem loadFresh_fst (env : Env) (c : Cache) (mt : PyStr) (alt : Bool) (cfg : ModelConfig) :
    (loadFresh env c mt alt cfg).1 = c := by
  unfold loadFresh
  rcases env.freshLoad mt alt with _ | ⟨tok, te, tr⟩
  · rfl
  · rcases get_scheduler_instance env cfg.schedulerClass with _ | sch
    · rfl
    · by_cases h : env.pipeAssemblyOk mt alt <;> simp [h]

theorem load_models_fst (env : Env) (c : Cache) (mt : PyStr) (alt : Bool) :
    (load_models env c mt alt).1 = c ∨
    (load_models env c mt alt).1 = dictPop c (cacheKey mt alt) := by
  unfold load_models
  by_cases hcl : env.hidreamClassesLoaded
  · simp only [hcl, if_true]
    rcases dictGet (MODEL_CONFIGS env) mt with _ | cfg
    · exact Or.inl rfl
    · simp only []
      by_cases h1 : cfg.requiresBNB && !env.bnbAvailable
      · simp [h1]
      · simp only [h1, Bool.false_eq_true, if_false]
        by_cases h2 : cfg.requiresGPTQDeps && (!env.optimumAvailable || !env.gptqSupportAvailable)
        · simp [h2]
        · simp only [h2, Bool.false_eq_true, if_false]
          rcases dictGet c (cacheKey mt alt) with _ | ⟨pipeOpt, storedCfg⟩
          · exact Or.inl (loadFresh_fst env c mt alt cfg)
          · rcases pipeOpt with _ | p
            · exact Or.inr (loadFresh_fst env _ mt alt cfg)
            · by_cases hp : p.transformer.isSome
              · simp [hp]
              · simp only [hp, Bool.false_eq_true, if_false]
                exact Or.inr (loadFresh_fst env _ mt alt cfg)
  · simp [hcl]

theorem load_models_nil_fst (env : Env) (mt : PyStr) (alt : Bool) :
    (load_models env [] mt alt).1 = [] := by
  rcases load_models_fst env [] mt alt with h | h
  · exact h
  · simpa [dictPop] using h

theorem load_models_length_le (env : Env) (c : Cache) (mt : PyStr) (alt : Bool) :
    (load_models env c mt alt).1.length ≤ c.length := by
  rcases load_models_fst env c mt alt with h | h
  · simp [h]
  · rw [h]
    exact dictPop_length_le c _

theorem load_models_hit (env : Env) (c : Cache) (mt : PyStr) (alt : Bool)
    (cfg : ModelConfig) (p : Pipe) (storedCfg : Option ModelConfig)
    (hcl : env.hidreamClassesLoaded = true)
    (hcfg : dictGet (MODEL_CONFIGS env) mt = some cfg)
    (hget : dictGet c (cacheKey mt alt) = some (some p, storedCfg))
    (hp : p.transformer.isSome = true) :
    load_models env c mt alt = (c, Except.ok (p, cfg)) := by
  obtain ⟨hd1, hd2⟩ := MODEL_CONFIGS_dep_ok env mt cfg hcfg
  unfold load_models
  simp [hcl, hcfg, hd1, hd2, hget, hp]

theorem load_models_fresh (env : Env) (c : Cache) (mt : PyStr) (alt : Bool)
    (cfg : ModelConfig) (tok te tr : Nat)
    (hcl : env.hidreamClassesLoaded = true)
    (hcfg : dictGet (MODEL_CONFIGS env) mt = some cfg)
    (hget : dictGet c (cacheKey mt alt) = none)
    (hfl : env.freshLoad mt alt = Except.ok (tok, te, tr))
    (hassem : env.pipeAssemblyOk mt alt = true) :
    load_models env c mt alt =
      (c, Except.ok (⟨some tr, some te, some tok, some env.newSchedulerId⟩, cfg)) := by
  obtain ⟨hd1, hd2⟩ := MODEL_CONFIGS_dep_ok env mt cfg hcfg
  have hs := get_scheduler_instance_ok env mt cfg hcl hcfg
  unfold load_models loadFresh
  simp [hcl, hcfg, hd1, hd2, hget, hfl, hs, hassem]

theorem load_models_not_valueErr (env : Env) (c : Cache) (mt : PyStr) (alt : Bool)
    (cfg : ModelConfig) (hcfg : dictGet (MODEL_CONFIGS env) mt = some cfg) :
    (load_models env c mt alt).2 ≠ Except.error LoadErr.valueErr := by
  by_cases hcl : env.hidreamClassesLoaded
  · obtain ⟨hd1, hd2⟩ := MODEL_CONFIGS_dep_ok env mt cfg hcfg
    have hs := get_scheduler_instance_ok env mt cfg hcl hcfg
    unfold load_models
    simp only [hcl, if_true, hcfg, hd1, hd2, Bool.false_eq_true, if_false]
    have hfresh : ∀ c' : Cache, (loadFresh env c' mt alt cfg).2 ≠ Except.error LoadErr.valueErr := by
      intro c'
      unfold loadFresh
      rcases env.freshLoad mt alt with _ | ⟨tok, te, tr⟩
      · simp
      · rw [hs]
        by_cases h : env.pipeAssemblyOk mt alt <;> simp [h]
    rcases dictGet c (cacheKey mt alt) with _ | ⟨pipeOpt, storedCfg⟩
    · exact hfresh c
    · rcases pipeOpt with _ | p
      · exact hfresh _
      · by_cases hp : p.transformer.isSome
        · simp [hp]
        · simp only [hp, Bool.false_eq_true, if_false]
          exact hfresh _
  · unfold load_models
    simp [hcl]

theorem applySchedulerChoice_fst (env : Env) (c : Cache) (key : PyStr) (p : Pipe)
    (cfg : ModelConfig) (scl sched : PyStr) :
    (applySchedulerChoice env c key p cfg scl sched).1 = c ∨
    ∃ p', (applySchedulerChoice env c key p cfg scl sched).1 =
      dictSet c key (some p', some cfg) := by
  unfold applySchedulerChoice
  by_cases h0 : sched ≠ ("Default for model").data
  · rw [if_pos h0]
    by_cases h1 : sched = ("UniPC").data
    · rw [if_pos h1]; exact Or.inr ⟨_, rfl⟩
    · rw [if_neg h1]
      by_cases h2 : sched = ("Euler").data
      · rw [if_pos h2]; exact Or.inr ⟨_, rfl⟩
      · rw [if_neg h2]
        by_cases h3 : sched = ("Karras Euler").data
        · rw [if_pos h3]; exact Or.inr ⟨_, rfl⟩
        · rw [if_neg h3]
          by_cases h4 : sched = ("Karras Exponential").data
          · rw [if_pos h4]; exact Or.inr ⟨_, rfl⟩
          · rw [if_neg h4]; exact Or.inl rfl
  · rw [if_neg h0]
    rcases get_scheduler_instance env scl with _ | sid
    · exact Or.inl rfl
    · exact Or.inr ⟨setScheduler p (some sid), rfl⟩

theorem applySchedulerChoice_singleton (env : Env) (key : PyStr) (p : Pipe)
    (cfg : ModelConfig) (scl sched : PyStr) (sid : Nat)
    (hs : get_scheduler_instance env scl = Except.ok sid) :
    ∃ p', applySchedulerChoice env [(key, (some p, some cfg))] key p cfg scl sched =
            ([(key, (some p', some cfg))], Except.ok p') ∧
          p'.transformer = p.transformer := by
  have hset : ∀ q : Pipe,
      dictSet [(key, (some p, some cfg))] key (some q, some cfg) =
        [(key, (some q, some cfg))] := by
    intro q; simp [dictSet]
  unfold applySchedulerChoice
  by_cases h0 : sched ≠ ("Default for model").data
  · rw [if_pos h0]
    by_cases h1 : sched = ("UniPC").data
    · refine ⟨setScheduler p (some env.newSchedulerId), ?_, rfl⟩
      rw [if_pos h1]; simp only [hset]
    · rw [if_neg h1]
      by_cases h2 : sched = ("Euler").data
      · refine ⟨setScheduler p (some env.newSchedulerId), ?_, rfl⟩
        rw [if_pos h2]; simp only [hset]
      · rw [if_neg h2]
        by_cases h3 : sched = ("Karras Euler").data
        · refine ⟨setScheduler p (some env.newSchedulerId), ?_, rfl⟩
          rw [if_pos h3]; simp only [hset]
        · rw [if_neg h3]
          by_cases h4 : sched = ("Karras Exponential").data
          · refine ⟨setScheduler p (some env.newSchedulerId), ?_, rfl⟩
            rw [if_pos h4]; simp only [hset]
          · refine ⟨p, ?_, rfl⟩
            rw [if_neg h4]
  · rw [if_neg h0, hs]
    exact ⟨setScheduler p (some sid), by simp only [hset], rfl⟩

theorem afterLoadNoReload_length (env : Env) (c : Cache) (mt : PyStr) (alt : Bool)
    (key : PyStr) (p : Pipe) (cfg : ModelConfig) (sched : PyStr) (h w : Nat)
    (oS : Int) (oC : ℚ) (hk : (dictGet c key).isSome = true) :
    (afterLoadNoReload env c mt alt key p cfg sched h w oS oC).1.length ≤ c.length := by
  unfold afterLoadNoReload
  rcases happ : applySchedulerChoice env c key p cfg cfg.schedulerClass sched with ⟨c6, r6⟩
  have hc6 : c6 = c ∨ ∃ p', c6 = dictSet c key (some p', some cfg) := by
    have := applySchedulerChoice_fst env c key p cfg cfg.schedulerClass sched
    rw [happ] at this
    exact this
  have hlen : c6.length ≤ c.length := by
    rcases hc6 with h6 | ⟨p', h6⟩
    · simp [h6]
    · rw [h6, dictSet_length_isSome _ _ _ hk]
  rcases r6 with _ | p' <;> simpa using hlen

theorem afterLoadSampler_length (env : Env) (c : Cache) (mt : PyStr) (alt : Bool)
    (p : Pipe) (cfg : ModelConfig) (sched : PyStr) (h w : Nat)
    (oS : Int) (oC : ℚ) (hk : (dictGet c (cacheKey mt alt)).isSome = true) :
    (afterLoadSampler env c mt alt (cacheKey mt alt) p cfg sched h w oS oC).1.length ≤
      c.length := by
  unfold afterLoadSampler
  rcases hlm : load_models env c mt alt with ⟨c5, r5⟩
  have hc5 : c5 = c ∨ c5 = dictPop c (cacheKey mt alt) := by
    have := load_models_fst env c mt alt
    rw [hlm] at this
    exact this
  rcases r5 with _ | ⟨p2, mc⟩
  · have : c5.length ≤ c.length := by
      rcases hc5 with h5 | h5
      · simp [h5]
      · rw [h5]; exact dictPop_length_le c _
    simpa using this
  · simp only []
    rcases happ : applySchedulerChoice env c5 (cacheKey mt alt) p cfg mc.schedulerClass sched
      with ⟨c6, r6⟩
    have hc6 : c6 = c5 ∨ ∃ p', c6 = dictSet c5 (cacheKey mt alt) (some p', some cfg) := by
      have := applySchedulerChoice_fst env c5 (cacheKey mt alt) p cfg mc.schedulerClass sched
      rw [happ] at this
      exact this
    have hlen : c6.length ≤ c.length := by
      rcases hc6 with h6 | ⟨p', h6⟩
      · rcases hc5 with h5 | h5
        · simp [h6, h5]
        · rw [h6, h5]; exact dictPop_length_le c _
      · rcases hc5 with h5 | h5
        · rw [h6, h5, dictSet_length_isSome _ _ _ hk]
        · rw [h6, h5]
          calc (dictSet (dictPop c (cacheKey mt alt)) (cacheKey mt alt)
                  (some p', some cfg)).length
              ≤ (dictPop c (cacheKey mt alt)).length + 1 := dictSet_length_le _ _ _
            _ = c.length := dictPop_length_isSome c _ hk
    rcases r6 with _ | p' <;> simpa using hlen

theorem genCacheCheck_spec (c : Cache) (key : PyStr) :
    (genCacheCheck c key = (c, none) ∧ dictGet c key = none) ∨
    (∃ p cfg, genCacheCheck c key = (c, some (p, cfg)) ∧
       dictGet c key = some (some p, some cfg) ∧ p.transformer.isSome = true) ∨
    genCacheCheck c key = (dictPop c key, none) := by
  rcases hget : dictGet c key with _ | ⟨pipeOpt, cfgOpt⟩
  · exact Or.inl ⟨by unfold genCacheCheck; rw [hget], rfl⟩
  · rcases pipeOpt with _ | p
    · exact Or.inr (Or.inr (by unfold genCacheCheck; rw [hget]))
    · rcases cfgOpt with _ | cfg
      · exact Or.inr (Or.inr (by unfold genCacheCheck; rw [hget]))
      · by_cases hp : p.transformer.isSome
        · exact Or.inr (Or.inl ⟨p, cfg,
            by unfold genCacheCheck; rw [hget]; simp [hp], rfl, hp⟩)
        · exact Or.inr (Or.inr
            (by unfold genCacheCheck; rw [hget]; simp [hp]))

theorem clearIf_eq_nil (env : Env) (c1 : Cache) :
    (if c1 = [] then c1 else (clearAllEntries env.cleanupFails c1).1) = [] := by
  by_cases h : c1 = []
  · simp [h]
  · simp [h, clearAllEntries_fst]

theorem samplerLoadPath_length (env : Env) (c1 : Cache) (mt : PyStr) (alt : Bool)
    (sched : PyStr) (h w : Nat) (oS : Int) (oC : ℚ) :
    (samplerLoadPath env c1 mt alt sched h w oS oC).1.length ≤ 1 := by
  unfold samplerLoadPath
  simp only [clearIf_eq_nil]
  rcases hlm : load_models env [] mt alt with ⟨c3, r3⟩
  have hc3 : c3 = [] := by
    have := load_models_nil_fst env mt alt
    rw [hlm] at this
    exact this
  subst hc3
  rcases r3 with e | ⟨p, cfg⟩
  · simp
  · simp only []
    have hk : (dictGet (dictSet ([] : Cache) (cacheKey mt alt) (some p, some cfg))
        (cacheKey mt alt)).isSome = true := by
      rw [dictGet_dictSet_self]
      rfl
    have := afterLoadSampler_length env
      (dictSet ([] : Cache) (cacheKey mt alt) (some p, some cfg)) mt alt p cfg sched h w oS oC hk
    simpa [dictSet] using this

theorem advancedLoadPath_length (env : Env) (c1 : Cache) (mt : PyStr) (alt : Bool)
    (sched : PyStr) (h w : Nat) (oS : Int) (oC : ℚ) :
    (advancedLoadPath env c1 mt alt sched h w oS oC).1.length ≤ 1 := by
  unfold advancedLoadPath
  simp only [clearIf_eq_nil]
  rcases hlm : load_models env [] mt alt with ⟨c3, r3⟩
  have hc3 : c3 = [] := by
    have := load_models_nil_fst env mt alt
    rw [hlm] at this
    exact this
  subst hc3
  rcases r3 with e | ⟨p, cfg⟩
  · simp
  · simp only []
    have hk : (dictGet (dictSet ([] : Cache) (cacheKey mt alt) (some p, some cfg))
        (cacheKey mt alt)).isSome = true := by
      rw [dictGet_dictSet_self]
      rfl
    have := afterLoadNoReload_length env
      (dictSet ([] : Cache) (cacheKey mt alt) (some p, some cfg)) mt alt
      (cacheKey mt alt) p cfg sched h w oS oC hk
    simpa [dictSet] using this

theorem img2imgLoadPath_length (env : Env) (c1 : Cache) (mt : PyStr) (alt : Bool)
    (sched : PyStr) (ih iw : Nat) (oS : Int) (oC : ℚ) :
    (img2imgLoadPath env c1 mt alt sched ih iw oS oC).1.length ≤ 1 := by
  unfold img2imgLoadPath
  simp only [clearIf_eq_nil]
  rcases hlm : load_models env [] mt alt with ⟨c3, r3⟩
  have hc3 : c3 = [] := by
    have := load_models_nil_fst env mt alt
    rw [hlm] at this
    exact this
  subst hc3
  rcases r3 with e | ⟨p, cfg⟩
  · simp
  · simp only []
    have hk : (dictGet (dictSet ([] : Cache) (img2imgCacheKey mt alt)
        (some ⟨p.transformer, p.text_encoder_4, p.tokenizer_4, p.scheduler⟩, some cfg))
        (img2imgCacheKey mt alt)).isSome = true := by
      rw [dictGet_dictSet_self]
      rfl
    have := afterLoadNoReload_length env
      (dictSet ([] : Cache) (img2imgCacheKey mt alt)
        (some ⟨p.transformer, p.text_encoder_4, p.tokenizer_4, p.scheduler⟩, some cfg))
      mt alt (img2imgCacheKey mt alt)
      ⟨p.transformer, p.text_encoder_4, p.tokenizer_4, p.scheduler⟩ cfg sched ih iw oS oC hk
    simpa [dictSet] using this

theorem HiDreamSampler_generate_length (env : Env) (c : Cache) (mt : PyStr) (alt : Bool)
    (aspect sched : PyStr) (oS : Int) (oC : ℚ) :
    (HiDreamSampler_generate env c mt alt aspect sched oS oC).1.length ≤ max c.length 1 := by
  unfold HiDreamSampler_generate
  by_cases he : MODEL_CONFIGS env = [] ∨ mt = ("error").data
  · rw [if_pos he]
    exact Nat.le_max_left _ _
  · rw [if_neg he]
    rcases genCacheCheck_spec c (cacheKey mt alt) with ⟨hcc, hget⟩ |
      ⟨p, cfg, hcc, hget, hp⟩ | hcc
    · simp only [hcc]
      exact le_trans (samplerLoadPath_length env c mt alt sched _ _ oS oC)
        (Nat.le_max_right _ _)
    · simp only [hcc]
      have hk : (dictGet c (cacheKey mt alt)).isSome = true := by rw [hget]; rfl
      exact le_trans (afterLoadSampler_length env c mt alt p cfg sched _ _ oS oC hk)
        (Nat.le_max_left _ _)
    · simp only [hcc]
      exact le_trans (samplerLoadPath_length env _ mt alt sched _ _ oS oC)
        (Nat.le_max_right _ _)

theorem HiDreamSamplerAdvanced_generate_length (env : Env) (c : Cache) (mt : PyStr)
    (alt : Bool) (aspect : PyStr) (sq cw ch : Nat) (sched : PyStr) (oS : Int) (oC : ℚ) :
    (HiDreamSamplerAdvanced_generate env c mt alt aspect sq cw ch sched oS oC).1.length ≤
      max c.length 1 := by
  unfold HiDreamSamplerAdvanced_generate
  by_cases he : MODEL_CONFIGS env = [] ∨ mt = ("error").data
  · rw [if_pos he]
    exact Nat.le_max_left _ _
  · rw [if_neg he]
    rcases genCacheCheck_spec c (cacheKey mt alt) with ⟨hcc, hget⟩ |
      ⟨p, cfg, hcc, hget, hp⟩ | hcc
    · simp only [hcc]
      exact le_trans (advancedLoadPath_length env c mt alt sched _ _ oS oC)
        (Nat.le_max_right _ _)
    · simp only [hcc]
      have hk : (dictGet c (cacheKey mt alt)).isSome = true := by rw [hget]; rfl
      exact le_trans (afterLoadNoReload_length env c mt alt (cacheKey mt alt) p cfg
        sched _ _ oS oC hk) (Nat.le_max_left _ _)
    · simp only [hcc]
      exact le_trans (advancedLoadPath_length env _ mt alt sched _ _ oS oC)
        (Nat.le_max_right _ _)

theorem HiDreamImg2Img_generate_length (env : Env) (c : Cache) (mt : PyStr)
    (alt : Bool) (ih iw : Nat) (sched : PyStr) (oS : Int) (oC : ℚ) :
    (HiDreamImg2Img_generate env c mt alt ih iw sched oS oC).1.length ≤
      max c.length 1 := by
  unfold HiDreamImg2Img_generate
  by_cases he : MODEL_CONFIGS env = [] ∨ mt = ("error").data
  · rw [if_pos he]
    exact Nat.le_max_left _ _
  · rw [if_neg he]
    rcases genCacheCheck_spec c (img2imgCacheKey mt alt) with ⟨hcc, hget⟩ |
      ⟨p, cfg, hcc, hget, hp⟩ | hcc
    · simp only [hcc]
      exact le_trans (img2imgLoadPath_length env c mt alt sched _ _ oS oC)
        (Nat.le_max_right _ _)
    · simp only [hcc]
      have hk : (dictGet c (img2imgCacheKey mt alt)).isSome = true := by rw [hget]; rfl
      exact le_trans (afterLoadNoReload_length env c mt alt (img2imgCacheKey mt alt) p cfg
        sched _ _ oS oC hk) (Nat.le_max_left _ _)
    · simp only [hcc]
      exact le_trans (img2imgLoadPath_length env _ mt alt sched _ _ oS oC)
        (Nat.le_max_right _ _)

theorem cacheKey_inj (m1 m2 : PyStr) (a1 a2 : Bool)
    (h : cacheKey m1 a1 = cacheKey m2 a2) : m1 = m2 ∧ a1 = a2 := by
  cases a1 <;> cases a2 <;> simp only [cacheKey, if_true, if_false, Bool.false_eq_true] at h
  · exact ⟨(List.append_inj' h rfl).1, rfl⟩
  · have h2 := congrArg List.reverse h
    simp [List.reverse_append] at h2
  · have h2 := congrArg List.reverse h
    simp [List.reverse_append] at h2
  · exact ⟨(List.append_inj' h rfl).1, rfl⟩

theorem img2imgCacheKey_inj (m1 m2 : PyStr) (a1 a2 : Bool)
    (h : img2imgCacheKey m1 a1 = img2imgCacheKey m2 a2) : m1 = m2 ∧ a1 = a2 := by
  cases a1 <;> cases a2 <;>
    simp only [img2imgCacheKey, if_true, if_false, Bool.false_eq_true] at h
  · exact ⟨(List.append_inj' h rfl).1, rfl⟩
  · have h2 := congrArg List.reverse h
    simp [List.reverse_append] at h2
  · have h2 := congrArg List.reverse h
    simp [List.reverse_append] at h2
  · exact ⟨(List.append_inj' h rfl).1, rfl⟩

theorem cacheKey_ne_img2img (m : PyStr) (a : Bool) :
    cacheKey m a ≠ img2imgCacheKey m a := by
  cases a <;> intro h <;> have h2 := congrArg List.length h <;>
    simp [cacheKey, img2imgCacheKey] at h2

theorem dictGet_some_ne_nil {β : Type} (d : List (PyStr × β)) (k : PyStr) (v : β)
    (h : dictGet d k = some v) : d ≠ [] := by
  intro hnil
  rw [hnil] at h
  simp [dictGet] at h

theorem sampler_gen_loads (env : Env) (c : Cache) (mt : PyStr) (alt : Bool)
    (aspect sched : PyStr) (oS : Int) (oC : ℚ) (cfg : ModelConfig) (tok te tr : Nat)
    (hcl : env.hidreamClassesLoaded = true)
    (hcfg : dictGet (MODEL_CONFIGS env) mt = some cfg)
    (hfl : env.freshLoad mt alt = Except.ok (tok, te, tr))
    (hassem : env.pipeAssemblyOk mt alt = true)
    (hmiss : dictGet c (cacheKey mt alt) = none)
    (hne : mt ≠ ("error").data) :
    ∃ q : Pipe, (HiDreamSampler_generate env c mt alt aspect sched oS oC).1 =
        [(cacheKey mt alt, (some q, some cfg))] ∧ q.transformer.isSome = true := by
  have hnonempty : MODEL_CONFIGS env ≠ [] := dictGet_some_ne_nil _ _ _ hcfg
  unfold HiDreamSampler_generate
  rw [if_neg (by push_neg; exact ⟨hnonempty, hne⟩)]
  have hccEq : genCacheCheck c (cacheKey mt alt) = (c, none) := by
    unfold genCacheCheck
    rw [hmiss]
  simp only [hccEq]
  unfold samplerLoadPath
  simp only [clearIf_eq_nil]
  have hload := load_models_fresh env [] mt alt cfg tok te tr hcl hcfg rfl hfl hassem
  rw [hload]
  simp only []
  have hset0 : dictSet ([] : Cache) (cacheKey mt alt)
      (some ⟨some tr, some te, some tok, some env.newSchedulerId⟩, some cfg) =
      [(cacheKey mt alt, (some ⟨some tr, some te, some tok, some env.newSchedulerId⟩,
        some cfg))] := rfl
  rw [hset0]
  unfold afterLoadSampler
  have hget2 : dictGet [(cacheKey mt alt,
      (some (⟨some tr, some te, some tok, some env.newSchedulerId⟩ : Pipe), some cfg))]
      (cacheKey mt alt) = some (some ⟨some tr, some te, some tok, some env.newSchedulerId⟩,
      some cfg) := by
    simp [dictGet]
  have hhit := load_models_hit env
    [(cacheKey mt alt, (some (⟨some tr, some te, some tok, some env.newSchedulerId⟩ : Pipe),
      some cfg))] mt alt cfg ⟨some tr, some te, some tok, some env.newSchedulerId⟩
    (some cfg) hcl hcfg hget2 rfl
  rw [hhit]
  simp only []
  have hs := get_scheduler_instance_ok env mt cfg hcl hcfg
  obtain ⟨p', happ, htr⟩ := applySchedulerChoice_singleton env (cacheKey mt alt)
    ⟨some tr, some te, some tok, some env.newSchedulerId⟩ cfg cfg.schedulerClass sched
    env.newSchedulerId hs
  rw [happ]
  simp only []
  refine ⟨p', rfl, ?_⟩
  rw [htr]
  rfl

theorem sampler_gen_load_fails (env : Env) (c : Cache) (mt : PyStr) (alt : Bool)
    (aspect sched : PyStr) (oS : Int) (oC : ℚ)
    (hne : mt ≠ ("error").data)
    (hnonempty : MODEL_CONFIGS env ≠ [])
    (hmiss : ∀ p scfg, dictGet c (cacheKey mt alt) = some (some p, some scfg) →
      p.transformer.isSome = false)
    (hfail : ∃ e, (load_models env [] mt alt).2 = Except.error e) :
    (HiDreamSampler_generate env c mt alt aspect sched oS oC).2 =
      Except.ok (zerosImage [1, 512, 512, 3]) ∧
    dictGet (HiDreamSampler_generate env c mt alt aspect sched oS oC).1
      (cacheKey mt alt) = none := by
  have hLoadPath : ∀ c1 : Cache,
      (samplerLoadPath env c1 mt alt sched
        ((Int.fdiv (parse_aspect_ratio aspect).2 64 * 64).toNat)
        ((Int.fdiv (parse_aspect_ratio aspect).1 64 * 64).toNat) oS oC) =
        ([], Except.ok (zerosImage [1, 512, 512, 3])) := by
    intro c1
    unfold samplerLoadPath
    simp only [clearIf_eq_nil]
    rcases hlm : load_models env [] mt alt with ⟨c3, r3⟩
    have hc3 : c3 = [] := by
      have := load_models_nil_fst env mt alt
      rw [hlm] at this
      exact this
    subst hc3
    obtain ⟨e, he⟩ := hfail
    rw [hlm] at he
    simp only [] at he
    subst he
    rfl
  unfold HiDreamSampler_generate
  rw [if_neg (by push_neg; exact ⟨hnonempty, hne⟩)]
  rcases genCacheCheck_spec c (cacheKey mt alt) with ⟨hcc, hget⟩ |
    ⟨p, cfg, hcc, hget, hp⟩ | hcc
  · simp only [hcc]
    rw [hLoadPath]
    exact ⟨rfl, rfl⟩
  · exact absurd (hmiss p cfg hget) (by rw [hp]; simp)
  · simp only [hcc]
    rw [hLoadPath]
    exact ⟨rfl, rfl⟩

theorem ws_not_digit (c : Char) (h : c.isWhitespace = true) : c.isDigit = false := by
  simp [Char.isWhitespace] at h
  rcases h with ((h | h) | h) | h <;> subst h <;> decide

theorem digit_not_ws (c : Char) (h : c.isDigit = true) : c.isWhitespace = false := by
  cases hw : c.isWhitespace
  · rfl
  · rw [ws_not_digit c hw] at h
    exact absurd h (by simp)

theorem digit_ne_lparen (c : Char) (h : c.isDigit = true) : c ≠ '(' := by
  intro e; subst e; exact absurd h (by decide)

theorem digit_ne_rparen (c : Char) (h : c.isDigit = true) : c ≠ ')' := by
  intro e; subst e; exact absurd h (by decide)

theorem digit_ne_times (c : Char) (h : c.isDigit = true) : c ≠ '×' := by
  intro e; subst e; exact absurd h (by decide)

theorem digit_ne_x (c : Char) (h : c.isDigit = true) : c ≠ 'x' := by
  intro e; subst e; exact absurd h (by decide)

theorem digit_ne_minus (c : Char) (h : c.isDigit = true) : c ≠ '-' := by
  intro e; subst e; exact absurd h (by decide)

theorem digit_ne_plus (c : Char) (h : c.isDigit = true) : c ≠ '+' := by
  intro e; subst e; exact absurd h (by decide)

theorem dropWhile_ws_head_digit (x : Char) (xs : List Char) (hx : x.isDigit = true) :
    List.dropWhile Char.isWhitespace (x :: xs) = x :: xs := by
  simp [List.dropWhile_cons, digit_not_ws x hx]

theorem reverse_cons_of_ne_nil (l : List Char) (hne : l ≠ []) :
    ∃ y ys, l.reverse = y :: ys ∧ y ∈ l := by
  rcases hrev : l.reverse with _ | ⟨y, ys⟩
  · exact absurd (by simpa using congrArg List.reverse hrev) hne
  · refine ⟨y, ys, rfl, ?_⟩
    have : y ∈ l.reverse := by rw [hrev]; exact List.mem_cons_self _ _
    simpa using this

theorem pyStrip_edges (l m r : List Char)
    (hl : l ≠ []) (hld : ∀ c ∈ l, c.isDigit = true)
    (hr : r ≠ []) (hrd : ∀ c ∈ r, c.isDigit = true) :
    pyStrip (l ++ m ++ r) = l ++ m ++ r := by
  unfold pyStrip
  rcases l with _ | ⟨x, xs⟩
  · exact absurd rfl hl
  have hx : x.isDigit = true := hld x (List.mem_cons_self _ _)
  rw [List.cons_append, List.cons_append, dropWhile_ws_head_digit x _ hx]
  obtain ⟨y, ys, hrev, hy⟩ := reverse_cons_of_ne_nil r hr
  have hy' : y.isDigit = true := hrd y hy
  have hrev2 : (x :: (xs ++ m ++ r)).reverse = y :: (ys ++ (m.reverse ++ (xs.reverse ++ [x]))) := by
    simp [List.reverse_append, hrev]
  rw [hrev2, dropWhile_ws_head_digit y _ hy', ← hrev2, List.reverse_reverse]

theorem pyStrip_digits (d : List Char) (hd : ∀ c ∈ d, c.isDigit = true) :
    pyStrip d = d := by
  rcases d with _ | ⟨x, xs⟩
  · rfl
  unfold pyStrip
  have hx : x.isDigit = true := hd x (List.mem_cons_self _ _)
  rw [dropWhile_ws_head_digit x _ hx]
  obtain ⟨y, ys, hrev, hy⟩ := reverse_cons_of_ne_nil (x :: xs) (by simp)
  rw [hrev, dropWhile_ws_head_digit y _ (hd y hy), ← hrev, List.reverse_reverse]

theorem pyStrip_trailing_space (d : List Char) (hne : d ≠ [])
    (hd : ∀ c ∈ d, c.isDigit = true) : pyStrip (d ++ (' ' :: [])) = d := by
  unfold pyStrip
  rcases d with _ | ⟨x, xs⟩
  · exact absurd rfl hne
  have hx : x.isDigit = true := hd x (List.mem_cons_self _ _)
  rw [List.cons_append, dropWhile_ws_head_digit x _ hx]
  have hrev2 : (x :: (xs ++ (' ' :: []))).reverse = ' ' :: (x :: xs).reverse := by
    simp
  rw [hrev2]
  have hws : List.dropWhile Char.isWhitespace (' ' :: (x :: xs).reverse) =
      List.dropWhile Char.isWhitespace (x :: xs).reverse := by
    simp [List.dropWhile_cons]
  rw [hws]
  obtain ⟨y, ys, hrev, hy⟩ := reverse_cons_of_ne_nil (x :: xs) (by simp)
  rw [hrev, dropWhile_ws_head_digit y _ (hd y hy), ← hrev, List.reverse_reverse]

theorem pyStrip_leading_space (d : List Char) (hne : d ≠ [])
    (hd : ∀ c ∈ d, c.isDigit = true) : pyStrip (' ' :: d) = d := by
  unfold pyStrip
  have h1 : List.dropWhile Char.isWhitespace (' ' :: d) =
      List.dropWhile Char.isWhitespace d := by
    simp [List.dropWhile_cons]
  rw [h1]
  rcases d with _ | ⟨x, xs⟩
  · exact absurd rfl hne
  have hx : x.isDigit = true := hd x (List.mem_cons_self _ _)
  rw [dropWhile_ws_head_digit x _ hx]
  obtain ⟨y, ys, hrev, hy⟩ := reverse_cons_of_ne_nil (x :: xs) (by simp)
  rw [hrev, dropWhile_ws_head_digit y _ (hd y hy), ← hrev, List.reverse_reverse]

theorem pyParseInt_digits (d : List Char) (hne : d ≠ [])
    (hd : ∀ c ∈ d, c.isDigit = true) : pyParseInt d = some ((digitsToNat d : Int)) := by
  unfold pyParseInt
  rw [pyStrip_digits d hd]
  rcases d with _ | ⟨c, rest⟩
  · exact absurd rfl hne
  have hc : c.isDigit = true := hd c (List.mem_cons_self _ _)
  simp only []
  rw [if_neg (digit_ne_minus c hc), if_neg (digit_ne_plus c hc)]
  have h1 : pyParseNat (c :: rest) = some (digitsToNat (c :: rest)) := by
    unfold pyParseNat
    rw [if_neg (by simp : ¬(c :: rest = []))]
    rw [if_pos (by rw [List.all_eq_true]; intro x hx; exact hd x hx)]
  rw [h1]

theorem pyReplaceChar_id (a b : Char) (l : List Char) (h : ∀ c ∈ l, c ≠ a) :
    pyReplaceChar a b l = l := by
  induction l with
  | nil => rfl
  | cons x xs ih =>
    unfold pyReplaceChar at ih ⊢
    simp only [List.map_cons]
    rw [if_neg (h x (List.mem_cons_self _ _)), ih (fun c hc => h c (List.mem_cons_of_mem _ hc))]

theorem splitOne_not_mem (a : Char) (xs : List Char) (h : a ∉ xs) :
    splitOne a xs = [xs] := by
  induction xs with
  | nil => rfl
  | cons x rest ih =>
    have hx : ¬x = a := fun e => h (by rw [e]; exact List.mem_cons_self _ _)
    have hrest : a ∉ rest := fun hm => h (List.mem_cons_of_mem _ hm)
    simp only [splitOne, hx, if_false, ih hrest, consHead]

theorem splitOne_append (a : Char) (xs ys : List Char) (h : a ∉ xs) :
    splitOne a (xs ++ a :: ys) = xs :: splitOne a ys := by
  induction xs with
  | nil => simp [splitOne]
  | cons x rest ih =>
    have hx : ¬x = a := fun e => h (by rw [e]; exact List.mem_cons_self _ _)
    have hrest : a ∉ rest := fun hm => h (List.mem_cons_of_mem _ hm)
    show splitOne a (x :: (rest ++ a :: ys)) = (x :: rest) :: splitOne a ys
    simp only [splitOne, hx, if_false]
    rw [ih hrest]
    rfl

theorem splitTwo_not_mem (a b : Char) (xs : List Char) (hb : b ∉ xs) (_hab : a ≠ b) :
    splitTwo a b xs = [xs] := by
  induction xs with
  | nil => rfl
  | cons x rest ih =>
    cases rest with
    | nil => rfl
    | cons y rest2 =>
      have hy : ¬y = b := fun e =>
        hb (by rw [e]; exact List.mem_cons_of_mem _ (List.mem_cons_self _ _))
      have hrest : b ∉ y :: rest2 := fun hm => hb (List.mem_cons_of_mem _ hm)
      have hcond : ¬(x = a ∧ y = b) := fun hand => hy hand.2
      simp only [splitTwo, hcond, if_false, ih hrest, consHead]

theorem splitTwo_append (a b : Char) (xs ys : List Char) (hb : b ∉ xs) (hab : a ≠ b) :
    splitTwo a b (xs ++ a :: b :: ys) = xs :: splitTwo a b ys := by
  induction xs with
  | nil => simp [splitTwo]
  | cons x rest ih =>
    have hrest : b ∉ rest := fun hm => hb (List.mem_cons_of_mem _ hm)
    cases rest with
    | nil =>
      have hcond : ¬(x = a ∧ a = b) := fun hand => hab hand.2
      show splitTwo a b (x :: a :: b :: ys) = [x] :: splitTwo a b ys
      simp only [splitTwo, hcond, if_false]
      simp [consHead]
    | cons y rest2 =>
      have hy : ¬y = b := fun e =>
        hb (by rw [e]; exact List.mem_cons_of_mem _ (List.mem_cons_self _ _))
      have hcond : ¬(x = a ∧ y = b) := fun hand => hy hand.2
      show splitTwo a b (x :: y :: (rest2 ++ a :: b :: ys)) =
        (x :: y :: rest2) :: splitTwo a b ys
      simp only [splitTwo, hcond, if_false]
      rw [show y :: (rest2 ++ a :: b :: ys) = (y :: rest2) ++ a :: b :: ys from rfl]
      rw [ih hrest]
      rfl

theorem parseDimsCore_wf (pre d1 d2 post : List Char)
    (hp : '(' ∉ pre) (hq : '(' ∉ post)
    (h1 : d1 ≠ []) (h1d : ∀ c ∈ d1, c.isDigit = true)
    (h2 : d2 ≠ []) (h2d : ∀ c ∈ d2, c.isDigit = true) :
    parseDimsCore (pre ++ '(' :: ((d1 ++ '×' :: d2) ++ ')' :: post)) =
      some ((digitsToNat d1 : Int), (digitsToNat d2 : Int)) := by
  have hnp1 : '(' ∉ (d1 ++ '×' :: d2) ++ ')' :: post := by
    intro hm
    rcases List.mem_append.mp hm with hm | hm
    · rcases List.mem_append.mp hm with hm | hm
      · exact digit_ne_lparen _ (h1d _ hm) rfl
      · rcases List.mem_cons.mp hm with he | hm
        · exact absurd he (by decide)
        · exact digit_ne_lparen _ (h2d _ hm) rfl
    · rcases List.mem_cons.mp hm with he | hm
      · exact absurd he (by decide)
      · exact hq hm
  have hs1 : splitOne '(' (pre ++ '(' :: ((d1 ++ '×' :: d2) ++ ')' :: post)) =
      pre :: [(d1 ++ '×' :: d2) ++ ')' :: post] := by
    rw [splitOne_append _ _ _ hp, splitOne_not_mem _ _ hnp1]
  unfold parseDimsCore
  rw [hs1]
  simp only []
  have hnr : ')' ∉ d1 ++ '×' :: d2 := by
    intro hm
    rcases List.mem_append.mp hm with hm | hm
    · exact digit_ne_rparen _ (h1d _ hm) rfl
    · rcases List.mem_cons.mp hm with he | hm
      · exact absurd he (by decide)
      · exact digit_ne_rparen _ (h2d _ hm) rfl
  rw [splitOne_append _ _ _ hnr]
  simp only [List.headD_cons]
  have hn1 : '×' ∉ d1 := fun hm => digit_ne_times _ (h1d _ hm) rfl
  have hn2 : '×' ∉ d2 := fun hm => digit_ne_times _ (h2d _ hm) rfl
  rw [splitOne_append _ _ _ hn1, splitOne_not_mem _ _ hn2]
  simp only []
  rw [pyParseInt_digits d1 h1 h1d, pyParseInt_digits d2 h2 h2d]

theorem parseResolutionCore_wf (d1 d2 lab : List Char)
    (h1 : d1 ≠ []) (h1d : ∀ c ∈ d1, c.isDigit = true)
    (h2 : d2 ≠ []) (h2d : ∀ c ∈ d2, c.isDigit = true) :
    parseResolutionCore ((d1 ++ (' ' :: '×' :: ' ' :: []) ++ d2) ++ ' ' :: '(' :: lab) =
      some ((digitsToNat d2 : Int), (digitsToNat d1 : Int)) := by
  have hb : '(' ∉ d1 ++ (' ' :: '×' :: ' ' :: []) ++ d2 := by
    intro hm
    rcases List.mem_append.mp hm with hm | hm
    · rcases List.mem_append.mp hm with hm | hm
      · exact digit_ne_lparen _ (h1d _ hm) rfl
      · exact absurd hm (by decide)
    · exact digit_ne_lparen _ (h2d _ hm) rfl
  have h2split := splitTwo_append ' ' '(' (d1 ++ (' ' :: '×' :: ' ' :: []) ++ d2) lab hb
    (by decide)
  unfold parseResolutionCore
  rw [h2split]
  simp only [List.headD_cons]
  rw [pyStrip_edges d1 (' ' :: '×' :: ' ' :: []) d2 h1 h1d h2 h2d]
  have hrep : pyReplaceChar 'x' '×' (d1 ++ (' ' :: '×' :: ' ' :: []) ++ d2) =
      d1 ++ (' ' :: '×' :: ' ' :: []) ++ d2 := by
    apply pyReplaceChar_id
    intro c hm
    rcases List.mem_append.mp hm with hm | hm
    · rcases List.mem_append.mp hm with hm | hm
      · exact digit_ne_x _ (h1d _ hm)
      · simp only [List.mem_cons, List.not_mem_nil, or_false] at hm
        rcases hm with h | h | h <;> subst h <;> decide
    · exact digit_ne_x _ (h2d _ hm)
  rw [hrep]
  have hxs : d1 ++ (' ' :: '×' :: ' ' :: []) ++ d2 =
      (d1 ++ (' ' :: [])) ++ '×' :: (' ' :: d2) := by
    simp
  rw [hxs]
  have hm1 : '×' ∉ d1 ++ (' ' :: []) := by
    intro hm
    rcases List.mem_append.mp hm with hm | hm
    · exact digit_ne_times _ (h1d _ hm) rfl
    · exact absurd hm (by decide)
  have hm2 : '×' ∉ ' ' :: d2 := by
    intro hm
    rcases List.mem_cons.mp hm with he | hm
    · exact absurd he (by decide)
    · exact digit_ne_times _ (h2d _ hm) rfl
  rw [splitOne_append _ _ _ hm1, splitOne_not_mem _ _ hm2]
  simp only []
  rw [pyStrip_trailing_space d1 h1 h1d, pyStrip_leading_space d2 h2 h2d]
  rw [pyParseInt_digits d1 h1 h1d, pyParseInt_digits d2 h2 h2d]

/-- C1: single-slot eviction.  For every pair of distinct configurations
(model type, alternate-LLM flag), a `HiDreamSampler.generate` call that loads
and caches configuration A (the key is absent beforehand and the foreign load
succeeds) leaves A's key cached, and a subsequent generate call that loads
and caches configuration B evicts A: a later cache lookup for A's key is a
miss. -/
theorem c1_single_slot_eviction (env : Env) (c : Cache)
    (mtA mtB : PyStr) (altA altB : Bool)
    (a1 s1 a2 s2 : PyStr) (o1 o2 : Int) (q1 q2 : ℚ)
    (hcl : env.hidreamClassesLoaded = true)
    (hcfgA : ∃ cfgA, dictGet (MODEL_CONFIGS env) mtA = some cfgA)
    (hcfgB : ∃ cfgB, dictGet (MODEL_CONFIGS env) mtB = some cfgB)
    (hflA : ∃ r, env.freshLoad mtA altA = Except.ok r)
    (hflB : ∃ r, env.freshLoad mtB altB = Except.ok r)
    (hassemA : env.pipeAssemblyOk mtA altA = true)
    (hassemB : env.pipeAssemblyOk mtB altB = true)
    (hmissA : dictGet c (cacheKey mtA altA) = none)
    (hdist : (mtA, altA) ≠ (mtB, altB))
    (hneA : mtA ≠ ("error").data) (hneB : mtB ≠ ("error").data) :
    (dictGet (HiDreamSampler_generate env c mtA altA a1 s1 o1 q1).1
       (cacheKey mtA altA)).isSome = true ∧
    dictGet (HiDreamSampler_generate env
        (HiDreamSampler_generate env c mtA altA a1 s1 o1 q1).1 mtB altB a2 s2 o2 q2).1
      (cacheKey mtA altA) = none := by
  obtain ⟨cfgA, hcfgA⟩ := hcfgA
  obtain ⟨cfgB, hcfgB⟩ := hcfgB
  obtain ⟨⟨tokA, teA, trA⟩, hflA⟩ := hflA
  obtain ⟨⟨tokB, teB, trB⟩, hflB⟩ := hflB
  obtain ⟨qA, hc1, hqA⟩ := sampler_gen_loads env c mtA altA a1 s1 o1 q1 cfgA
    tokA teA trA hcl hcfgA hflA hassemA hmissA hneA
  have hkeys : ¬cacheKey mtB altB = cacheKey mtA altA := by
    intro h
    obtain ⟨hm, ha⟩ := cacheKey_inj _ _ _ _ h
    exact hdist (by rw [hm, ha])
  have hkeys' : ¬cacheKey mtA altA = cacheKey mtB altB := fun h => hkeys h.symm
  have hmissB : dictGet (HiDreamSampler_generate env c mtA altA a1 s1 o1 q1).1
      (cacheKey mtB altB) = none := by
    rw [hc1]
    simp [dictGet, hkeys']
  obtain ⟨qB, hc2, hqB⟩ := sampler_gen_loads env _ mtB altB a2 s2 o2 q2 cfgB
    tokB teB trB hcl hcfgB hflB hassemB hmissB hneB
  constructor
  · rw [hc1]
    simp [dictGet]
  · rw [hc2]
    simp [dictGet, hkeys]

/-- Witness for C1: with every dependency available and an empty cache,
loading "fast-nf4" then "dev-nf4" in `HiDreamSampler.generate` leaves the
"fast-nf4" key cached after the first call and evicted after the second. -/
theorem c1_single_slot_eviction_witness :
    (dictGet (HiDreamSampler_generate envOK [] (("fast-nf4").data) false
        (("1:1 (1024×1024)").data) (("Default for model").data) (-1) (-1)).1
      (cacheKey (("fast-nf4").data) false)).isSome = true ∧
    dictGet (HiDreamSampler_generate envOK
        (HiDreamSampler_generate envOK [] (("fast-nf4").data) false
          (("1:1 (1024×1024)").data) (("Default for model").data) (-1) (-1)).1
        (("dev-nf4").data) false (("1:1 (1024×1024)").data) (("Euler").data)
        (-1) (-1)).1
      (cacheKey (("fast-nf4").data) false) = none :=
  c1_single_slot_eviction envOK [] (("fast-nf4").data) (("dev-nf4").data) false false
    (("1:1 (1024×1024)").data) (("Default for model").data)
    (("1:1 (1024×1024)").data) (("Euler").data) (-1) (-1) (-1) (-1)
    rfl ⟨_, rfl⟩ ⟨_, rfl⟩ ⟨_, rfl⟩ ⟨_, rfl⟩ rfl rfl rfl
    (by decide) (by decide) (by decide)

/-- C2: at-most-one-entry invariant.  If the shared `_model_cache` holds at
most one entry, it still holds at most one entry after `generate` of any of
the three node classes sharing it, after `cleanup_models`, and after
`load_models`; moreover every pipe processed by the clear-all loop that runs
before an insertion has its four owned sub-components (transformer, text
encoder, tokenizer, scheduler) set to None. -/
theorem c2_at_most_one_entry (env : Env) (c : Cache) (mt : PyStr) (alt : Bool)
    (aspect sched : PyStr) (sq cw ch ih iw : Nat) (oS : Int) (oC : ℚ)
    (fails : PyStr → Bool) (hc : c.length ≤ 1) :
    (HiDreamSampler_generate env c mt alt aspect sched oS oC).1.length ≤ 1 ∧
    (HiDreamSamplerAdvanced_generate env c mt alt aspect sq cw ch sched oS oC).1.length ≤ 1 ∧
    (HiDreamImg2Img_generate env c mt alt ih iw sched oS oC).1.length ≤ 1 ∧
    (cleanup_models fails c).1.length ≤ 1 ∧
    (load_models env c mt alt).1.length ≤ 1 ∧
    (∀ p ∈ (clearAllEntries fails c).2,
      p.transformer = none ∧ p.text_encoder_4 = none ∧
      p.tokenizer_4 = none ∧ p.scheduler = none) := by
  have hmax : max c.length 1 ≤ 1 := max_le hc (le_refl 1)
  refine ⟨le_trans (HiDreamSampler_generate_length env c mt alt aspect sched oS oC) hmax,
    le_trans (HiDreamSamplerAdvanced_generate_length env c mt alt aspect sq cw ch
      sched oS oC) hmax,
    le_trans (HiDreamImg2Img_generate_length env c mt alt ih iw sched oS oC) hmax,
    ?_, le_trans (load_models_length_le env c mt alt) hc, ?_⟩
  · rw [cleanup_models_fst]
    simp
  · intro p hp
    rw [clearAllEntries_cleaned fails c p hp]
    exact ⟨rfl, rfl, rfl, rfl⟩

/-- Witness for C2: a one-entry cache stays at most one entry across all the
operations, and the cleared pipe comes out with all sub-components None. -/
theorem c2_at_most_one_entry_witness :
    ((cacheKey (("full").data) false, (some pipeGood, some cfgFull)) ::
        ([] : Cache)).length ≤ 1 ∧
    (HiDreamSampler_generate envOK
        [(cacheKey (("full").data) false, (some pipeGood, some cfgFull))]
        (("dev").data) false (("1:1 (1024×1024)").data)
        (("Default for model").data) (-1) (-1)).1.length ≤ 1 :=
  ⟨by decide,
   (c2_at_most_one_entry envOK
      [(cacheKey (("full").data) false, (some pipeGood, some cfgFull))]
      (("dev").data) false (("1:1 (1024×1024)").data) (("Default for model").data)
      1024 1024 1024 704 704 (-1) (-1) (fun _ => false) (by decide)).1⟩

/-- C3: lookup contract of `load_models`.  When the requested key is present
in the cache: if the stored pipeline handle is non-None and its transformer
sub-component is non-None, the lookup returns that stored handle together
with the originating `MODEL_CONFIGS` record and leaves the cache unchanged;
if the handle is None or its transformer is None, the lookup is treated as a
miss — the entry is popped (so the key no longer resolves) and a fresh load
proceeds on the purged cache. -/
theorem c3_lookup_contract (env : Env) (c : Cache) (mt : PyStr) (alt : Bool)
    (cfg : ModelConfig) (pOpt : Option Pipe) (cfgOpt : Option ModelConfig)
    (hcl : env.hidreamClassesLoaded = true)
    (hcfg : dictGet (MODEL_CONFIGS env) mt = some cfg)
    (hnd : (c.map Prod.fst).Nodup)
    (hget : dictGet c (cacheKey mt alt) = some (pOpt, cfgOpt)) :
    (∀ p, pOpt = some p → p.transformer.isSome = true →
      load_models env c mt alt = (c, Except.ok (p, cfg))) ∧
    ((pOpt = none ∨ ∃ p, pOpt = some p ∧ p.transformer = none) →
      load_models env c mt alt = loadFresh env (dictPop c (cacheKey mt alt)) mt alt cfg ∧
      dictGet (load_models env c mt alt).1 (cacheKey mt alt) = none) := by
  obtain ⟨hd1, hd2⟩ := MODEL_CONFIGS_dep_ok env mt cfg hcfg
  constructor
  · intro p hp hpt
    subst hp
    exact load_models_hit env c mt alt cfg p cfgOpt hcl hcfg hget hpt
  · intro hinv
    have hlm : load_models env c mt alt =
        loadFresh env (dictPop c (cacheKey mt alt)) mt alt cfg := by
      unfold load_models
      simp only [hcl, if_true, hcfg, hd1, Bool.false_eq_true, if_false, hd2]
      rw [hget]
      rcases hinv with hnone | ⟨p, hp, hpt⟩
      · subst hnone
        simp only []
      · subst hp
        simp only []
        rw [if_neg (by rw [hpt]; simp)]
    refine ⟨hlm, ?_⟩
    rw [hlm, loadFresh_fst]
    exact dictGet_dictPop_self c _ hnd

/-- Witness for C3: a valid cached entry for "full" is returned as-is with
the original config record, and an invalid entry (None handle) is purged so
the key no longer resolves. -/
theorem c3_lookup_contract_witness :
    load_models envOK [(cacheKey (("full").data) false, (some pipeGood, some cfgFull))]
      (("full").data) false =
      ([(cacheKey (("full").data) false, (some pipeGood, some cfgFull))],
        Except.ok (pipeGood, cfgFull)) ∧
    dictGet (load_models envOK [(cacheKey (("full").data) false, (none, some cfgFull))]
        (("full").data) false).1 (cacheKey (("full").data) false) = none :=
  ⟨(c3_lookup_contract envOK
      [(cacheKey (("full").data) false, (some pipeGood, some cfgFull))]
      (("full").data) false cfgFull (some pipeGood) (some cfgFull)
      rfl rfl (by decide) (by decide)).1 pipeGood rfl rfl,
   ((c3_lookup_contract envOK
      [(cacheKey (("full").data) false, (none, some cfgFull))]
      (("full").data) false cfgFull none (some cfgFull)
      rfl rfl (by decide) (by decide)).2 (Or.inl rfl)).2⟩

/-- C4: global teardown.  `cleanup_models` removes every entry from the
shared cache — afterwards the mapping is empty and a lookup for any key
(in particular any previously cached key) is a miss — and this holds for
every per-entry failure oracle `fails`, because each entry is popped from
the dict before its sub-components are cleared inside the per-entry try. -/
theorem c4_cleanup_empties_cache (fails : PyStr → Bool) (c : Cache) :
    (cleanup_models fails c).1 = [] ∧
    ∀ k, dictGet (cleanup_models fails c).1 k = none := by
  have h := cleanup_models_fst fails c
  exact ⟨h, fun k => by rw [h]; rfl⟩

/-- Witness for C4: a two-entry cache with a failing per-entry cleanup is
still emptied, and the previously cached key misses. -/
theorem c4_cleanup_empties_cache_witness :
    (cleanup_models (fun _ => true)
      [(cacheKey (("full").data) false, (some pipeGood, some cfgFull)),
       (cacheKey (("dev").data) true, (none, none))]).1 = [] ∧
    dictGet (cleanup_models (fun _ => true)
      [(cacheKey (("full").data) false, (some pipeGood, some cfgFull)),
       (cacheKey (("dev").data) true, (none, none))]).1
      (cacheKey (("full").data) false) = none :=
  ⟨(c4_cleanup_empties_cache (fun _ => true) _).1,
   (c4_cleanup_empties_cache (fun _ => true) _).2 _⟩

/-- C5: unknown model type.  With the hi_diffusers classes importable, calling
`load_models` with a model type absent from `MODEL_CONFIGS` raises ValueError
(never a silent default); for every model type present in `MODEL_CONFIGS`,
no execution path of `load_models` produces that ValueError. -/
theorem c5_unknown_model_type_valueerror (env : Env) (c : Cache) (mt : PyStr)
    (alt : Bool) :
    (env.hidreamClassesLoaded = true → dictGet (MODEL_CONFIGS env) mt = none →
      (load_models env c mt alt).2 = Except.error LoadErr.valueErr) ∧
    (∀ cfg, dictGet (MODEL_CONFIGS env) mt = some cfg →
      (load_models env c mt alt).2 ≠ Except.error LoadErr.valueErr) := by
  constructor
  · intro hcl hnone
    unfold load_models
    simp [hcl, hnone]
  · intro cfg hcfg
    exact load_models_not_valueErr env c mt alt cfg hcfg

/-- Witness for C5: "zzz" is rejected with ValueError, "full" never takes the
ValueError branch. -/
theorem c5_unknown_model_type_valueerror_witness :
    (load_models envOK [] (("zzz").data) false).2 = Except.error LoadErr.valueErr ∧
    (load_models envOK [] (("full").data) false).2 ≠ Except.error LoadErr.valueErr :=
  ⟨(c5_unknown_model_type_valueerror envOK [] (("zzz").data) false).1 rfl (by decide),
   (c5_unknown_model_type_valueerror envOK [] (("full").data) false).2 cfgFull
     (by decide)⟩

/-- C6: distinct key namespaces.  The text-to-image cache key is determined
exactly by the model variant identifier and the alternate-LLM flag (two keys
are equal iff the pairs are equal), likewise the image-to-image key, and for
every pair the text-to-image key differs from the image-to-image key. -/
theorem c6_cache_key_namespaces (m1 m2 : PyStr) (a1 a2 : Bool) :
    (cacheKey m1 a1 = cacheKey m2 a2 ↔ m1 = m2 ∧ a1 = a2) ∧
    (img2imgCacheKey m1 a1 = img2imgCacheKey m2 a2 ↔ m1 = m2 ∧ a1 = a2) ∧
    cacheKey m1 a1 ≠ img2imgCacheKey m1 a1 := by
  refine ⟨⟨cacheKey_inj m1 m2 a1 a2, ?_⟩, ⟨img2imgCacheKey_inj m1 m2 a1 a2, ?_⟩,
    cacheKey_ne_img2img m1 a1⟩
  · rintro ⟨rfl, rfl⟩
    rfl
  · rintro ⟨rfl, rfl⟩
    rfl

/-- Witness for C6 at a concrete pair: the two namespaces differ and equal
pairs give equal keys. -/
theorem c6_cache_key_namespaces_witness :
    cacheKey (("fast-nf4").data) true ≠ img2imgCacheKey (("fast-nf4").data) true ∧
    (cacheKey (("fast-nf4").data) true = cacheKey (("fast-nf4").data) true ↔
      ((("fast-nf4").data) = (("fast-nf4").data) ∧ true = true)) :=
  ⟨(c6_cache_key_namespaces (("fast-nf4").data) (("fast-nf4").data) true true).2.2,
   (c6_cache_key_namespaces (("fast-nf4").data) (("fast-nf4").data) true true).1⟩

/-- C7: the unload hook.  Installing the hook on an unwrapped host
`unload_all_models` yields a callable that first performs the cache's full
eviction (`cleanup_models`, leaving the cache empty) and then delegates to
the original handler, returning the original handler's whole result; and
installing is idempotent — a second module load does not wrap again. -/
theorem c7_unload_hook (fails : PyStr → Bool) (u : UnloadFn) (c : Cache) (host : Nat) :
    (u.hidreamWrapped = false →
      (installHiDreamHook fails u).run c host = u.run [] host) ∧
    installHiDreamHook fails (installHiDreamHook fails u) = installHiDreamHook fails u := by
  constructor
  · intro h
    unfold installHiDreamHook
    rw [if_neg (by rw [h]; simp)]
    show u.run (cleanup_models fails c).1 host = u.run [] host
    rw [cleanup_models_fst]
  · by_cases hw : u.hidreamWrapped
    · unfold installHiDreamHook
      rw [if_pos hw, if_pos hw]
    · unfold installHiDreamHook
      rw [if_neg hw]
      rw [if_pos (show (wrapUnload fails u).hidreamWrapped = true from rfl)]

/-- Witness for C7: the installed hook on a sample host function empties a
one-entry cache and returns the original result. -/
theorem c7_unload_hook_witness :
    (installHiDreamHook (fun _ => false) unloadSample).run
      [(cacheKey (("full").data) false, (some pipeGood, some cfgFull))] 5 =
      ([], 5, 42) := by
  rw [(c7_unload_hook (fun _ => false) unloadSample
    [(cacheKey (("full").data) false, (some pipeGood, some cfgFull))] 5).1 rfl]
  rfl

/-- C8: load-failure path of `HiDreamSampler.generate`.  When the requested
key has no valid cache entry and loading fails on the cleared cache (an
unrecognised model type, for which `load_models` raises ValueError, is one
such case), `generate` does not propagate the exception: it returns the
all-zero image tensor of shape (1, 512, 512, 3), and the final cache has no
entry for the requested key — no partially-loaded entry is inserted. -/
theorem c8_load_failure_returns_zeros (env : Env) (c : Cache) (mt : PyStr)
    (alt : Bool) (aspect sched : PyStr) (oS : Int) (oC : ℚ)
    (hne : mt ≠ ("error").data)
    (hnonempty : MODEL_CONFIGS env ≠ [])
    (hmiss : ∀ p scfg, dictGet c (cacheKey mt alt) = some (some p, some scfg) →
      p.transformer.isSome = false)
    (hfail : ∃ e, (load_models env [] mt alt).2 = Except.error e) :
    (HiDreamSampler_generate env c mt alt aspect sched oS oC).2 =
      Except.ok (zerosImage [1, 512, 512, 3]) ∧
    dictGet (HiDreamSampler_generate env c mt alt aspect sched oS oC).1
      (cacheKey mt alt) = none :=
  sampler_gen_load_fails env c mt alt aspect sched oS oC hne hnonempty hmiss hfail

/-- Witness for C8: the unrecognised model type "bogus" makes the loader
raise; `generate` returns the (1,512,512,3) zero tensor and caches nothing. -/
theorem c8_load_failure_returns_zeros_witness :
    (HiDreamSampler_generate envOK [] (("bogus").data) false (("x").data)
      (("y").data) (-1) (-1)).2 = Except.ok (zerosImage [1, 512, 512, 3]) ∧
    dictGet (HiDreamSampler_generate envOK [] (("bogus").data) false (("x").data)
      (("y").data) (-1) (-1)).1 (cacheKey (("bogus").data) false) = none :=
  c8_load_failure_returns_zeros envOK [] (("bogus").data) false (("x").data)
    (("y").data) (-1) (-1) (by decide) (by decide)
    (fun p scfg h => by simp [dictGet] at h) ⟨LoadErr.valueErr, by decide⟩

/-- C9: the resolution and aspect-ratio parsers are total with the fixed
(1024, 1024) fallback.  On a well-formed string of the expected shape (digit
strings in the expected positions), `parse_resolution`,
`HiDreamSampler.parse_aspect_ratio` and
`HiDreamSamplerAdvanced.parse_dimensions` return exactly the two parsed
integers; on any string whose try-body fails (modelled by the core parser
returning none — the parsers themselves are total functions and never
raise), each returns (1024, 1024); and `parse_dimensions` returns
(1024, 1024) on every string containing "Square Reso". -/
theorem c9_parsers_total_with_fallback (d1 d2 lab pre post : List Char)
    (h1 : d1 ≠ []) (h1d : ∀ c ∈ d1, c.isDigit = true)
    (h2 : d2 ≠ []) (h2d : ∀ c ∈ d2, c.isDigit = true)
    (hp : '(' ∉ pre) (hq : '(' ∉ post) :
    parse_resolution ((d1 ++ (' ' :: '×' :: ' ' :: []) ++ d2) ++ ' ' :: '(' :: lab) =
      ((digitsToNat d2 : Int), (digitsToNat d1 : Int)) ∧
    parse_aspect_ratio (pre ++ '(' :: ((d1 ++ '×' :: d2) ++ ')' :: post)) =
      ((digitsToNat d1 : Int), (digitsToNat d2 : Int)) ∧
    (pyContains ("Square Reso").data
        (pre ++ '(' :: ((d1 ++ '×' :: d2) ++ ')' :: post)) = false →
      parse_dimensions (pre ++ '(' :: ((d1 ++ '×' :: d2) ++ ')' :: post)) =
        ((digitsToNat d1 : Int), (digitsToNat d2 : Int))) ∧
    (∀ s, parseResolutionCore s = none → parse_resolution s = (1024, 1024)) ∧
    (∀ s, parseDimsCore s = none → parse_aspect_ratio s = (1024, 1024)) ∧
    (∀ s, pyContains ("Square Reso").data s = true →
      parse_dimensions s = (1024, 1024)) ∧
    (∀ s, pyContains ("Square Reso").data s = false → parseDimsCore s = none →
      parse_dimensions s = (1024, 1024)) := by
  refine ⟨?_, ?_, ?_, ?_, ?_, ?_, ?_⟩
  · unfold parse_resolution
    rw [parseResolutionCore_wf d1 d2 lab h1 h1d h2 h2d]
    rfl
  · unfold parse_aspect_ratio
    rw [parseDimsCore_wf pre d1 d2 post hp hq h1 h1d h2 h2d]
    rfl
  · intro hsq
    unfold parse_dimensions
    rw [hsq]
    simp only [Bool.false_eq_true, if_false]
    rw [parseDimsCore_wf pre d1 d2 post hp hq h1 h1d h2 h2d]
    rfl
  · intro s hs
    unfold parse_resolution
    rw [hs]
    rfl
  · intro s hs
    unfold parse_aspect_ratio
    rw [hs]
    rfl
  · intro s hs
    unfold parse_dimensions
    rw [hs]
    rfl
  · intro s hs hcore
    unfold parse_dimensions
    rw [hs]
    simp only [Bool.false_eq_true, if_false]
    rw [hcore]
    rfl

/-- Witness for C9 on the actual UI strings "768 × 1360 (Portrait)" and
"9:16 (768×1360)", plus a fallback example. -/
theorem c9_parsers_total_with_fallback_witness :
    parse_resolution ((('7' :: '6' :: '8' :: []) ++ (' ' :: '×' :: ' ' :: []) ++
      ('1' :: '3' :: '6' :: '0' :: [])) ++ ' ' :: '(' :: ("Portrait)").data) =
      (1360, 768) ∧
    parse_aspect_ratio (("9:16 ").data ++ '(' ::
      ((('7' :: '6' :: '8' :: []) ++ '×' :: ('1' :: '3' :: '6' :: '0' :: [])) ++
        ')' :: [])) = (768, 1360) ∧
    parse_resolution (("garbage").data) = (1024, 1024) := by
  have h := c9_parsers_total_with_fallback ('7' :: '6' :: '8' :: [])
    ('1' :: '3' :: '6' :: '0' :: []) (("Portrait)").data) (("9:16 ").data) []
    (by decide) (by decide) (by decide) (by decide) (by decide) (by decide)
  exact ⟨h.1, h.2.1, h.2.2.2.1 (("garbage").data) (by decide)⟩

/-- C10: the claim states every preset of `HiDreamResolutionSelect` returns a
pair of positive multiples of 64 (and the code's own comment asserts all
preset dimensions are multiples of 64), but get_resolution on the
"4:5 Classic (896 x 1120)" preset returns (896, 1120) and 1120 is not a
multiple of 64; Custom Square echoes the slider value as claimed. -/
theorem c10_classic_preset_not_multiple_of_64 :
    get_resolution (("4:5 Classic (896 x 1120)").data) 1024 = (896, 1120) ∧
    (get_resolution (("4:5 Classic (896 x 1120)").data) 1024).2 % 64 = 32 ∧
    ¬(64 ∣ (get_resolution (("4:5 Classic (896 x 1120)").data) 1024).2) ∧
    get_resolution (("Custom Square").data) 1024 = (1024, 1024) := by
  decide
